import Mathlib

/-!
# moving_main.cpp : a quad drawn through a viewport that the arrow keys move

A shallow embedding of `src/moving_main.cpp`.

* The graphics and windowing library calls are recorded as a trace of `Call`s;
  the only library state the program's control flow or the claims depend on is
  kept in `GLState` (the window's close flag, the viewport rectangle and the
  contents of the two data buffers).
* The C++ `int` offset `x`, `y` is a 32 bit integer.  The language leaves
  signed overflow undefined, so `movementsChecked` has no result when a `+=` or
  `-=` leaves the `int` range, and every statement about the value of the
  offset is made for runs in which that does not happen.  The run of the whole
  program needs some `int` in `x` and `y` to go on with; `movements` takes the
  two's complement one (`wrapInt`), and agrees with `movementsChecked`
  wherever the latter has a result.
* The frame loop has no bound of its own.  A run is driven by the finite list
  of frames observed so far (`Env.frames`); when that list is used up while the
  close flag is still unset the outcome is `exit = none` (still running).
-/

namespace MovingMain

/-! ## Machine integers -/

/-- Number of values of a C++ `int` (32 bit). -/
def INT_MODULUS : Int := 4294967296

/-- Smallest C++ `int` is `-INT_HALF`, the largest is `INT_HALF - 1`. -/
def INT_HALF : Int := 2147483648

/-- Reduce a mathematical integer to the `int` it is stored as. -/
def wrapInt (v : Int) : Int := (v + INT_HALF) % INT_MODULUS - INT_HALF

/-! ## Settings and fixed data (lines 11-12, 120-129) -/

def SRC_WIDTH : Nat := 800

def SRC_HEIGHT : Nat := 600

/-- The `float vertices[]` array; every literal (`0.5f`, `-0.5f`, `0.0f`) is
exactly representable, so the entries are the rationals they denote. -/
def vertices : List ℚ :=
  [ 1/2,  1/2, 0,
    1/2, -1/2, 0,
   -1/2, -1/2, 0,
   -1/2,  1/2, 0 ]

/-- The `unsigned int indices[]` array. -/
def indices : List Nat :=
  [ 0, 1, 3,
    1, 2, 3 ]

/-- Second argument of `glVertexAttribPointer` (line 162): floats per vertex. -/
def ATTRIB_SIZE : Nat := 3

/-- Second argument of `glDrawElements` (line 203): number of indices drawn. -/
def DRAW_COUNT : Nat := 6

/-- Size argument of the `infoLog` buffer (line 83). -/
def INFO_LOG_SIZE : Nat := 512

/-! ## Library calls and library state -/

inductive ShaderKind
  | vertex
  | fragment
  deriving DecidableEq, Repr

inductive BufferTarget
  | arrayBuffer
  | elementArrayBuffer
  deriving DecidableEq, Repr

inductive Key
  | escape
  | left
  | right
  | up
  | down
  deriving DecidableEq, Repr

/-- The three window hints of lines 43-49: context version major and minor
(with the requested number) and the core profile. -/
inductive WindowHint
  | contextVersionMajor (version : Nat)
  | contextVersionMinor (version : Nat)
  | openglCoreProfile
  deriving DecidableEq, Repr

/-- The viewport rectangle, as set by `glViewport`. -/
structure Viewport where
  x : Int
  y : Int
  width : Int
  height : Int
  deriving DecidableEq, Repr

/-- One observable step of the program: a library call (with the arguments that
matter here) or a line written to standard output. -/
inductive Call
  | glfwInit
  | glfwWindowHint (hint : WindowHint)
  | glfwCreateWindow (width height : Nat)
  | print (text : String)
  | glfwTerminate
  | glfwMakeContextCurrent
  | glfwSetFramebufferSizeCallback
  | gladLoadGLLoader
  | glCreateShader (kind : ShaderKind)
  | glShaderSource (kind : ShaderKind)
  | glCompileShader (kind : ShaderKind)
  | glGetShaderiv (kind : ShaderKind)
  | glGetShaderInfoLog (kind : ShaderKind) (bufSize : Nat)
  | glCreateProgram
  | glAttachShader (kind : ShaderKind)
  | glLinkProgram
  | glGetProgramiv
  | glGetProgramInfoLog (bufSize : Nat)
  | glDeleteShader (kind : ShaderKind)
  | glGenVertexArrays
  | glGenBuffers (target : BufferTarget)
  | glBindVertexArray (bound : Bool)
  | glBindBuffer (target : BufferTarget) (bound : Bool)
  | glBufferData (target : BufferTarget) (bytes : Nat)
  | glVertexAttribPointer (index size stride : Nat)
  | glEnableVertexAttribArray (index : Nat)
  | glfwWindowShouldClose
  | glfwGetKey (key : Key)
  | glfwSetWindowShouldClose (value : Bool)
  | glClearColor
  | glClear
  | glUseProgram
  | glViewport (x y width height : Int)
  | glDrawElements (count : Nat)
  | glfwSwapBuffers
  | glfwPollEvents
  | glDeleteVertexArrays
  | glDeleteBuffers (target : BufferTarget)
  | glDeleteProgram
  deriving DecidableEq, Repr

/-- The part of the library state that the program reads back or that a draw
call depends on. -/
structure GLState where
  shouldClose : Bool
  viewport : Viewport
  arrayBuffer : List ℚ
  elementBuffer : List Nat

/-- What one `glDrawElements` call was issued with: its count argument, the
viewport in effect and the contents of the bound buffers. -/
structure DrawRecord where
  count : Nat
  viewport : Viewport
  vertexData : List ℚ
  indexData : List Nat

/-- What the outside world does during one iteration of the frame loop: the key
states `glfwGetKey` reports in that iteration, and the events delivered by the
`glfwPollEvents` call that ends it. -/
structure FrameInput where
  esc : Bool
  left : Bool
  right : Bool
  up : Bool
  down : Bool
  osClose : Bool
  resizes : List (Int × Int)

/-- Everything outside the program that a run depends on. -/
structure Env where
  windowOk : Bool
  loaderOk : Bool
  vertexOk : Bool
  fragmentOk : Bool
  linkOk : Bool
  vertexLog : String
  fragmentLog : String
  linkLog : String
  initialViewport : Viewport
  frames : List FrameInput

/-! ## The functions of the program -/

/-- Lines 234-238. -/
def processInput (f : FrameInput) (g : GLState) : GLState × List Call :=
  if f.esc then
    ({ g with shouldClose := true },
      [Call.glfwGetKey Key.escape, Call.glfwSetWindowShouldClose true])
  else
    (g, [Call.glfwGetKey Key.escape])

/-- Lines 239-244. -/
def framebuffer_size_callback (width height : Int) (g : GLState) : GLState × List Call :=
  ({ g with viewport := { x := 0, y := 0, width := width, height := height } },
    [Call.glViewport 0 0 width height])

/-- Lines 246-260, the effect on `x` and `y`, made total: where a `+=` / `-=`
overflows, which the language leaves undefined, the two's complement `int` is
taken.  See `movementsChecked` for the effect as far as it is defined. -/
def movements (f : FrameInput) (x y : Int) : Int × Int :=
  let speed : Int := 2
  let x1 := if f.left then wrapInt (x - speed) else x
  let x2 := if f.right then wrapInt (x1 + speed) else x1
  let y1 := if f.up then wrapInt (y + speed) else y
  let y2 := if f.down then wrapInt (y1 - speed) else y1
  (x2, y2)

/-- Lines 246-260, the calls made: the four key queries happen whatever the
answers are. -/
def movementsCalls : List Call :=
  [Call.glfwGetKey Key.left, Call.glfwGetKey Key.right,
   Call.glfwGetKey Key.up, Call.glfwGetKey Key.down]

/-- The result of an `int` addition or subtraction whose mathematical value is
`v`: that value when it fits an `int`; no result when it does not, since the
language leaves signed overflow undefined. -/
def checkedInt (v : Int) : Option Int :=
  if -INT_HALF ≤ v ∧ v < INT_HALF then some v else none

/-- Lines 246-260, the effect on `x` and `y` as far as the language defines it:
there is no result when one of the executed `+=` / `-=` overflows. -/
def movementsChecked (f : FrameInput) (x y : Int) : Option (Int × Int) :=
  let speed : Int := 2
  (if f.left then checkedInt (x - speed) else some x).bind fun x1 =>
  (if f.right then checkedInt (x1 + speed) else some x1).bind fun x2 =>
  (if f.up then checkedInt (y + speed) else some y).bind fun y1 =>
  (if f.down then checkedInt (y1 - speed) else some y1).bind fun y2 =>
  some (x2, y2)

/-- Line 217: the pending events are dispatched; a close request sets the close
flag and every framebuffer size event runs the registered callback. -/
def glfwPollEvents (f : FrameInput) (g : GLState) : GLState × List Call :=
  let g1 : GLState := if f.osClose then { g with shouldClose := true } else g
  f.resizes.foldl
    (fun acc wh =>
      let r := framebuffer_size_callback wh.1 wh.2 acc.1
      (r.1, acc.2 ++ r.2))
    (g1, [Call.glfwPollEvents])

/-- Result of one execution of the loop body. -/
structure FrameResult where
  x : Int
  y : Int
  gl : GLState
  trace : List Call
  draw : DrawRecord

/-- Lines 192-217: one execution of the loop body. -/
def frameBody (f : FrameInput) (x y : Int) (g : GLState) : FrameResult :=
  let p := processInput f g
  let xy := movements f x y
  let g2 : GLState :=
    { p.1 with viewport := { x := xy.1, y := xy.2, width := SRC_WIDTH, height := SRC_HEIGHT } }
  let d : DrawRecord :=
    { count := DRAW_COUNT, viewport := g2.viewport,
      vertexData := g2.arrayBuffer, indexData := g2.elementBuffer }
  let e := glfwPollEvents f g2
  { x := xy.1, y := xy.2, gl := e.1,
    trace := p.2 ++ movementsCalls ++
      [Call.glClearColor, Call.glClear, Call.glUseProgram, Call.glBindVertexArray true,
       Call.glViewport xy.1 xy.2 SRC_WIDTH SRC_HEIGHT,
       Call.glDrawElements DRAW_COUNT, Call.glfwSwapBuffers] ++ e.2,
    draw := d }

/-- Result of the frame loop on the frames observed. -/
structure LoopResult where
  exited : Bool
  x : Int
  y : Int
  gl : GLState
  trace : List Call
  drawn : List DrawRecord

/-- Lines 190-220: the `while` loop.  The close flag is tested before every
body; `exited = false` means the observed frames ran out with the flag unset
(the trace then ends with the last completed body). -/
def frameLoop : List FrameInput → Int → Int → GLState → LoopResult
  | [], x, y, g =>
    if g.shouldClose then
      { exited := true, x := x, y := y, gl := g,
        trace := [Call.glfwWindowShouldClose], drawn := [] }
    else
      { exited := false, x := x, y := y, gl := g, trace := [], drawn := [] }
  | f :: rest, x, y, g =>
    if g.shouldClose then
      { exited := true, x := x, y := y, gl := g,
        trace := [Call.glfwWindowShouldClose], drawn := [] }
    else
      let b := frameBody f x y g
      let r := frameLoop rest b.x b.y b.gl
      { r with
        trace := Call.glfwWindowShouldClose :: (b.trace ++ r.trace),
        drawn := b.draw :: r.drawn }

/-- Lines 41-53: library start-up, the three window hints and the window
creation call. -/
def bootstrapCalls : List Call :=
  [Call.glfwInit,
   Call.glfwWindowHint (WindowHint.contextVersionMajor 3),
   Call.glfwWindowHint (WindowHint.contextVersionMinor 3),
   Call.glfwWindowHint WindowHint.openglCoreProfile,
   Call.glfwCreateWindow SRC_WIDTH SRC_HEIGHT]

/-- Lines 60-67: the context is made current, the resize callback registered
and the loader run. -/
def contextCalls : List Call :=
  [Call.glfwMakeContextCurrent, Call.glfwSetFramebufferSizeCallback, Call.gladLoadGLLoader]

/-- The text `glGetShaderInfoLog` / `glGetProgramInfoLog` leaves in a buffer of
`INFO_LOG_SIZE` characters: at most `INFO_LOG_SIZE - 1` of the log. -/
def truncateLog (log : String) : String :=
  String.mk (log.data.take (INFO_LOG_SIZE - 1))

/-- Lines 85-89 and 95-99: the status query of one shader and, when it reports
failure, the diagnostic. -/
def shaderCheck (kind : ShaderKind) (success : Bool) (log : String) : List Call :=
  if !success then
    [Call.glGetShaderiv kind, Call.glGetShaderInfoLog kind INFO_LOG_SIZE,
     Call.print ("ERROR\n" ++ truncateLog log ++ "\n")]
  else
    [Call.glGetShaderiv kind]

/-- Lines 106-110: the link status query and, on failure, the diagnostic. -/
def linkCheck (success : Bool) (log : String) : List Call :=
  if !success then
    [Call.glGetProgramiv, Call.glGetProgramInfoLog INFO_LOG_SIZE,
     Call.print ("ERROR\n" ++ truncateLog log ++ "\n")]
  else
    [Call.glGetProgramiv]

/-- Lines 73-112: shader compilation and linking. -/
def shaderCalls (env : Env) : List Call :=
  [Call.glCreateShader ShaderKind.vertex, Call.glShaderSource ShaderKind.vertex,
   Call.glCompileShader ShaderKind.vertex] ++
  shaderCheck ShaderKind.vertex env.vertexOk env.vertexLog ++
  [Call.glCreateShader ShaderKind.fragment, Call.glShaderSource ShaderKind.fragment,
   Call.glCompileShader ShaderKind.fragment] ++
  shaderCheck ShaderKind.fragment env.fragmentOk env.fragmentLog ++
  [Call.glCreateProgram, Call.glAttachShader ShaderKind.vertex,
   Call.glAttachShader ShaderKind.fragment, Call.glLinkProgram] ++
  linkCheck env.linkOk env.linkLog ++
  [Call.glDeleteShader ShaderKind.vertex, Call.glDeleteShader ShaderKind.fragment]

/-- Lines 131-178: buffer creation, upload and vertex layout.  `sizeof` of a
`float` and of an `unsigned int` is 4. -/
def geometryCalls : List Call :=
  [Call.glGenVertexArrays, Call.glGenBuffers BufferTarget.arrayBuffer,
   Call.glGenBuffers BufferTarget.elementArrayBuffer,
   Call.glBindVertexArray true,
   Call.glBindBuffer BufferTarget.arrayBuffer true,
   Call.glBufferData BufferTarget.arrayBuffer (4 * vertices.length),
   Call.glBindBuffer BufferTarget.elementArrayBuffer true,
   Call.glBufferData BufferTarget.elementArrayBuffer (4 * indices.length),
   Call.glVertexAttribPointer 0 ATTRIB_SIZE (ATTRIB_SIZE * 4),
   Call.glEnableVertexAttribArray 0,
   Call.glBindBuffer BufferTarget.arrayBuffer false,
   Call.glBindVertexArray false]

/-- Library state of a new window: the close flag is unset and no buffer has
been filled. -/
def stateAtStart (env : Env) : GLState :=
  { shouldClose := false, viewport := env.initialViewport,
    arrayBuffer := [], elementBuffer := [] }

/-- Library state when the frame loop is entered: the close flag of a new
window is unset, the two `glBufferData` calls have stored the arrays. -/
def stateAtLoopEntry (env : Env) : GLState :=
  { shouldClose := false, viewport := env.initialViewport,
    arrayBuffer := vertices, elementBuffer := indices }

/-- Lines 222-229. -/
def shutdownCalls : List Call :=
  [Call.glDeleteVertexArrays, Call.glDeleteBuffers BufferTarget.arrayBuffer,
   Call.glDeleteBuffers BufferTarget.elementArrayBuffer, Call.glDeleteProgram,
   Call.glfwTerminate]

/-- Outcome of a run of `main`.  `exit = none`: the observed frames ran out while
the loop was still running.  `x`, `y` and `gl` are the loop variables and the
library state at that point (their initial values when the loop was never
reached). -/
structure Outcome where
  exit : Option Int
  x : Int
  y : Int
  gl : GLState
  trace : List Call
  drawn : List DrawRecord

/-- Lines 39-232. -/
def main (env : Env) : Outcome :=
  if !env.windowOk then
    { exit := some (-1), x := 0, y := 0, gl := stateAtStart env,
      trace := bootstrapCalls ++
        [Call.print "Failed to create GLFW window\n", Call.glfwTerminate],
      drawn := [] }
  else if !env.loaderOk then
    { exit := some (-1), x := 0, y := 0, gl := stateAtStart env,
      trace := bootstrapCalls ++ contextCalls ++
        [Call.print "Failed to initialize GLAD\n"],
      drawn := [] }
  else
    let r := frameLoop env.frames 0 0 (stateAtLoopEntry env)
    let setup := bootstrapCalls ++ contextCalls ++ shaderCalls env ++ geometryCalls
    if r.exited then
      { exit := some 0, x := r.x, y := r.y, gl := r.gl,
        trace := setup ++ r.trace ++ shutdownCalls, drawn := r.drawn }
    else
      { exit := none, x := r.x, y := r.y, gl := r.gl,
        trace := setup ++ r.trace, drawn := r.drawn }

/-! ## Derived notions used by the statements -/

/-- The offset after running `movements` once per frame, starting from `(x, y)`. -/
def runFrom (fs : List FrameInput) (x y : Int) : Int × Int :=
  fs.foldl (fun xy f => movements f xy.1 xy.2) (x, y)

/-- The offset after running `movements` once per frame from the initial
offset `(0, 0)` of line 189. -/
def offsetAfter (fs : List FrameInput) : Int × Int := runFrom fs 0 0

/-- The offset after running `movementsChecked` once per frame, starting from
`(x, y)`; no result as soon as one frame overflows. -/
def runFromChecked : List FrameInput → Int → Int → Option (Int × Int)
  | [], x, y => some (x, y)
  | f :: fs, x, y => (movementsChecked f x y).bind fun p => runFromChecked fs p.1 p.2

/-- The offset after the given frames from the initial offset `(0, 0)` of line
189, as far as the language defines it. -/
def offsetAfterChecked (fs : List FrameInput) : Option (Int × Int) := runFromChecked fs 0 0

/-- The specification's delta of one held key. -/
def keyDelta : Key → Int × Int
  | Key.left => (-2, 0)
  | Key.right => (2, 0)
  | Key.up => (0, 2)
  | Key.down => (0, -2)
  | Key.escape => (0, 0)

/-- The arrow keys held in a frame. -/
def heldArrows (f : FrameInput) : List Key :=
  (if f.left then [Key.left] else []) ++ (if f.right then [Key.right] else []) ++
  (if f.up then [Key.up] else []) ++ (if f.down then [Key.down] else [])

/-- The specification's delta of one frame: the sum over the held keys. -/
def frameDelta (f : FrameInput) : Int × Int := ((heldArrows f).map keyDelta).sum

/-- The specification's offset: the sum of the per-key per-frame deltas. -/
def sumDeltas (fs : List FrameInput) : Int × Int := (fs.map frameDelta).sum

/-- A value a C++ `int` can hold. -/
def InIntRange (v : Int) : Prop := -INT_HALF ≤ v ∧ v < INT_HALF

/-- A frame in which nothing asks the window to close. -/
def FrameInput.keepsOpen (f : FrameInput) : Prop := f.esc = false ∧ f.osClose = false

/-- A frame with no arrow key held. -/
def FrameInput.noArrows (f : FrameInput) : Prop :=
  f.left = false ∧ f.right = false ∧ f.up = false ∧ f.down = false

/-- A frame in which Right, and no other key, is held. -/
def FrameInput.rightOnly (f : FrameInput) : Prop :=
  f.esc = false ∧ f.left = false ∧ f.right = true ∧ f.up = false ∧ f.down = false

instance instDecidableInIntRange (v : Int) : Decidable (InIntRange v) := by
  unfold InIntRange
  infer_instance

instance instDecidableKeepsOpen (f : FrameInput) : Decidable f.keepsOpen := by
  unfold FrameInput.keepsOpen
  infer_instance

instance instDecidableNoArrows (f : FrameInput) : Decidable f.noArrows := by
  unfold FrameInput.noArrows
  infer_instance

instance instDecidableRightOnly (f : FrameInput) : Decidable f.rightOnly := by
  unfold FrameInput.rightOnly
  infer_instance

/-- The frame with only Right held and no event delivered. -/
def rightFrame : FrameInput :=
  { esc := false, left := false, right := true, up := false, down := false,
    osClose := false, resizes := [] }

/-- The frame with only Escape pressed and no event delivered. -/
def escapeFrame : FrameInput :=
  { esc := true, left := false, right := false, up := false, down := false,
    osClose := false, resizes := [] }

/-- The frame with no key pressed and no event delivered. -/
def idleFrame : FrameInput :=
  { esc := false, left := false, right := false, up := false, down := false,
    osClose := false, resizes := [] }

/-- A run in which the window, the loader, both compilations and the link
succeed, with the given frames. -/
def goodEnv (fs : List FrameInput) : Env :=
  { windowOk := true, loaderOk := true, vertexOk := true, fragmentOk := true,
    linkOk := true, vertexLog := "", fragmentLog := "", linkLog := "",
    initialViewport := { x := 0, y := 0, width := 800, height := 600 },
    frames := fs }

/-- The calls `glfwPollEvents` gives rise to: itself, then one `glViewport` per
framebuffer size event. -/
def pollCalls (f : FrameInput) : List Call :=
  Call.glfwPollEvents :: f.resizes.map (fun wh => Call.glViewport 0 0 wh.1 wh.2)

/-- The diagnostic steps: retrieving an info log and printing. -/
def Call.isDiagnostic : Call → Bool
  | Call.glGetShaderInfoLog _ _ => true
  | Call.glGetProgramInfoLog _ => true
  | Call.print _ => true
  | _ => false

/-- The steps that only occur past initialisation (shader, buffer, vertex
layout, frame loop and release steps): every step other than the calls made on
lines 41-71, which are the start-up, window, context and loader calls, the
printing of a message and `glfwTerminate`. -/
def Call.isPastInit : Call → Bool
  | Call.glfwInit => false
  | Call.glfwWindowHint _ => false
  | Call.glfwCreateWindow _ _ => false
  | Call.print _ => false
  | Call.glfwTerminate => false
  | Call.glfwMakeContextCurrent => false
  | Call.glfwSetFramebufferSizeCallback => false
  | Call.gladLoadGLLoader => false
  | _ => true

/-! ### Geometry -/

/-- Vertex `i` of a tightly packed position array, `ATTRIB_SIZE` floats each. -/
def vertexAt (data : List ℚ) (i : Nat) : ℚ × ℚ × ℚ :=
  (data.getD (ATTRIB_SIZE * i) 0, data.getD (ATTRIB_SIZE * i + 1) 0,
   data.getD (ATTRIB_SIZE * i + 2) 0)

/-- Primitive assembly of a triangle list: consecutive index triples. -/
def assembleTriangles : List Nat → List (Nat × Nat × Nat)
  | a :: b :: c :: rest => (a, b, c) :: assembleTriangles rest
  | _ => []

/-- The triangles (as index triples) one draw call assembles. -/
def drawnTriangles (d : DrawRecord) : List (Nat × Nat × Nat) :=
  assembleTriangles (d.indexData.take d.count)

/-- Cross product of `B - A` and `C - A`. -/
def crossProduct (A B C : ℚ × ℚ × ℚ) : ℚ × ℚ × ℚ :=
  let u := (B.1 - A.1, B.2.1 - A.2.1, B.2.2 - A.2.2)
  let v := (C.1 - A.1, C.2.1 - A.2.1, C.2.2 - A.2.2)
  (u.2.1 * v.2.2 - u.2.2 * v.2.1, u.2.2 * v.1 - u.1 * v.2.2, u.1 * v.2.1 - u.2.1 * v.1)

/-- A triangle is non-degenerate when its corners are not collinear. -/
def NonDegenerate (A B C : ℚ × ℚ × ℚ) : Prop := crossProduct A B C ≠ (0, 0, 0)

instance instDecidableNonDegenerate (A B C : ℚ × ℚ × ℚ) : Decidable (NonDegenerate A B C) := by
  unfold NonDegenerate
  infer_instance

/-- A point with rational coordinates, seen in an ordered field `K`. -/
def toPoint (K : Type) [DivisionRing K] (v : ℚ × ℚ × ℚ) : K × K × K :=
  ((v.1 : K), (v.2.1 : K), (v.2.2 : K))

/-- Corner `i` of the quad, as a point over `K`. -/
def corner (K : Type) [DivisionRing K] (i : Nat) : K × K × K :=
  toPoint K (vertexAt vertices i)

/-- Membership of `P` in the closed triangle `A B C` (convex combinations). -/
def InTriangle {K : Type} [LinearOrderedField K] (A B C P : K × K × K) : Prop :=
  ∃ a b c : K, 0 ≤ a ∧ 0 ≤ b ∧ 0 ≤ c ∧ a + b + c = 1 ∧
    P.1 = a * A.1 + b * B.1 + c * C.1 ∧
    P.2.1 = a * A.2.1 + b * B.2.1 + c * C.2.1 ∧
    P.2.2 = a * A.2.2 + b * B.2.2 + c * C.2.2

/-- Membership of `P` in the closed segment `A B`. -/
def OnSegment {K : Type} [LinearOrderedField K] (A B P : K × K × K) : Prop :=
  ∃ t : K, 0 ≤ t ∧ t ≤ 1 ∧
    P.1 = (1 - t) * A.1 + t * B.1 ∧
    P.2.1 = (1 - t) * A.2.1 + t * B.2.1 ∧
    P.2.2 = (1 - t) * A.2.2 + t * B.2.2

/-- Membership of `P` in the square `[-1/2, 1/2] x [-1/2, 1/2]` of the plane
`z = 0`. -/
def InUnitSquare {K : Type} [LinearOrderedField K] (P : K × K × K) : Prop :=
  -(1/2) ≤ P.1 ∧ P.1 ≤ 1/2 ∧ -(1/2) ≤ P.2.1 ∧ P.2.1 ≤ 1/2 ∧ P.2.2 = 0

/-! ### Traces of whole frames -/

/-- The calls of one loop body, as a function of the frame and of the offset
the body starts from. -/
def bodyCalls (f : FrameInput) (x y : Int) : List Call :=
  (if f.esc then [Call.glfwGetKey Key.escape, Call.glfwSetWindowShouldClose true]
    else [Call.glfwGetKey Key.escape]) ++ movementsCalls ++
  [Call.glClearColor, Call.glClear, Call.glUseProgram, Call.glBindVertexArray true,
   Call.glViewport (movements f x y).1 (movements f x y).2 SRC_WIDTH SRC_HEIGHT,
   Call.glDrawElements DRAW_COUNT, Call.glfwSwapBuffers] ++ pollCalls f

/-- The calls of the loop over frames none of which asks to close: test, body,
test, body, ... -/
def openCalls : List FrameInput → Int → Int → List Call
  | [], _, _ => []
  | f :: fs, x, y =>
    Call.glfwWindowShouldClose ::
      (bodyCalls f x y ++ openCalls fs (movements f x y).1 (movements f x y).2)

/-- The draw records of the loop over frames that are all executed. -/
def openDraws (vb : List ℚ) (eb : List Nat) : List FrameInput → Int → Int → List DrawRecord
  | [], _, _ => []
  | f :: fs, x, y =>
    { count := DRAW_COUNT,
      viewport := { x := (movements f x y).1, y := (movements f x y).2,
                    width := SRC_WIDTH, height := SRC_HEIGHT },
      vertexData := vb, indexData := eb } ::
      openDraws vb eb fs (movements f x y).1 (movements f x y).2

/-! ### Concrete frames and runs used as examples -/

/-- The frame with Left and Up held. -/
def leftUpFrame : FrameInput :=
  { esc := false, left := true, right := false, up := true, down := false,
    osClose := false, resizes := [] }

/-- The run of C3: Right alone held for `k` frames, then Escape. -/
def rightThenEscape (k : Nat) : Env :=
  goodEnv (List.replicate k rightFrame ++ [escapeFrame])

/-- The calls that follow the setting of the close flag in a run ended by
Escape: the rest of the loop body, the loop test and the shutdown. -/
def escapeTail (fe : FrameInput) (x y : Int) : List Call :=
  movementsCalls ++
  [Call.glClearColor, Call.glClear, Call.glUseProgram, Call.glBindVertexArray true,
   Call.glViewport (movements fe x y).1 (movements fe x y).2 SRC_WIDTH SRC_HEIGHT,
   Call.glDrawElements DRAW_COUNT, Call.glfwSwapBuffers] ++ pollCalls fe ++
  Call.glfwWindowShouldClose :: shutdownCalls

/-- A frame with Up held during which the window is resized twice. -/
def resizeFrame : FrameInput :=
  { esc := false, left := false, right := false, up := true, down := false,
    osClose := false, resizes := [(1024, 768), (640, 480)] }

/-- The run in which window creation fails. -/
def noWindowEnv : Env := { goodEnv [rightFrame, escapeFrame] with windowOk := false }

/-- The run in which the loader fails. -/
def noLoaderEnv : Env := { goodEnv [rightFrame, escapeFrame] with loaderOk := false }

/-- A frame in which the OS asks the window to close. -/
def osCloseFrame : FrameInput :=
  { esc := false, left := false, right := false, up := false, down := false,
    osClose := true, resizes := [] }

/-- The same run with the three success flags reporting success. -/
def allShadersOk (env : Env) : Env :=
  { env with vertexOk := true, fragmentOk := true, linkOk := true }

/-- The diagnostic of a failed compilation: the log is fetched and printed. -/
def shaderDiagnostic (kind : ShaderKind) (log : String) : List Call :=
  [Call.glGetShaderInfoLog kind INFO_LOG_SIZE,
   Call.print ("ERROR\n" ++ truncateLog log ++ "\n")]

/-- The diagnostic of a failed link: the log is fetched and printed. -/
def linkDiagnostic (log : String) : List Call :=
  [Call.glGetProgramInfoLog INFO_LOG_SIZE,
   Call.print ("ERROR\n" ++ truncateLog log ++ "\n")]

/-- A run in which the fragment shader fails to compile and the link fails. -/
def badShaderEnv : Env :=
  { goodEnv [rightFrame, escapeFrame] with
    fragmentOk := false, linkOk := false,
    fragmentLog := "0:1: unexpected token", linkLog := "link failed" }

/-! ## Machine integer facts -/

theorem wrapInt_of_inRange {v : Int} (h : InIntRange v) : wrapInt v = v := by
  unfold InIntRange INT_HALF at h
  unfold wrapInt INT_HALF INT_MODULUS
  omega

theorem wrapInt_inRange (v : Int) : InIntRange (wrapInt v) := by
  unfold InIntRange wrapInt INT_HALF INT_MODULUS
  omega

theorem wrapInt_wrapInt_add (a b : Int) : wrapInt (wrapInt a + b) = wrapInt (a + b) := by
  unfold wrapInt INT_HALF INT_MODULUS
  omega

theorem wrapInt_wrapInt_sub (a b : Int) : wrapInt (wrapInt a - b) = wrapInt (a - b) := by
  unfold wrapInt INT_HALF INT_MODULUS
  omega

theorem inIntRange_zero : InIntRange 0 := by
  unfold InIntRange INT_HALF
  omega

/-! ## The offset: `movements` against the sum of deltas -/

theorem frameDelta_fst (f : FrameInput) :
    (frameDelta f).1 = (if f.right then 2 else 0) - (if f.left then 2 else 0) := by
  cases f with
  | mk esc l r u d oc rs =>
    cases l <;> cases r <;> cases u <;> cases d <;> simp [frameDelta, heldArrows, keyDelta]

theorem frameDelta_snd (f : FrameInput) :
    (frameDelta f).2 = (if f.up then 2 else 0) - (if f.down then 2 else 0) := by
  cases f with
  | mk esc l r u d oc rs =>
    cases l <;> cases r <;> cases u <;> cases d <;> simp [frameDelta, heldArrows, keyDelta]

theorem frameDelta_fst_bound (f : FrameInput) :
    -2 ≤ (frameDelta f).1 ∧ (frameDelta f).1 ≤ 2 := by
  rw [frameDelta_fst]
  cases f.left <;> cases f.right <;> simp

theorem frameDelta_snd_bound (f : FrameInput) :
    -2 ≤ (frameDelta f).2 ∧ (frameDelta f).2 ≤ 2 := by
  rw [frameDelta_snd]
  cases f.up <;> cases f.down <;> simp

theorem movements_eq (f : FrameInput) (x y : Int) (hx : InIntRange x) (hy : InIntRange y) :
    movements f x y = (wrapInt (x + (frameDelta f).1), wrapInt (y + (frameDelta f).2)) := by
  rw [frameDelta_fst, frameDelta_snd]
  have ex := wrapInt_of_inRange hx
  have ey := wrapInt_of_inRange hy
  cases f with
  | mk esc l r u d oc rs =>
    cases l <;> cases r <;> cases u <;> cases d <;>
      simp [movements, wrapInt_wrapInt_add, wrapInt_wrapInt_sub, ex, ey] <;>
      simp [sub_eq_add_neg]

theorem sumDeltas_nil : sumDeltas [] = (0, 0) := by
  simp [sumDeltas]

theorem sumDeltas_cons (f : FrameInput) (fs : List FrameInput) :
    sumDeltas (f :: fs) = ((frameDelta f).1 + (sumDeltas fs).1, (frameDelta f).2 + (sumDeltas fs).2) := by
  simp [sumDeltas]
  rfl

theorem runFrom_nil (x y : Int) : runFrom [] x y = (x, y) := rfl

theorem runFrom_cons (f : FrameInput) (fs : List FrameInput) (x y : Int) :
    runFrom (f :: fs) x y = runFrom fs (movements f x y).1 (movements f x y).2 := rfl

theorem runFrom_append (fs gs : List FrameInput) (x y : Int) :
    runFrom (fs ++ gs) x y = runFrom gs (runFrom fs x y).1 (runFrom fs x y).2 := by
  simp [runFrom, List.foldl_append]

theorem runFrom_eq (fs : List FrameInput) :
    ∀ x y : Int, InIntRange x → InIntRange y →
      runFrom fs x y = (wrapInt (x + (sumDeltas fs).1), wrapInt (y + (sumDeltas fs).2)) := by
  induction fs with
  | nil =>
    intro x y hx hy
    simp [runFrom_nil, sumDeltas_nil, wrapInt_of_inRange hx, wrapInt_of_inRange hy]
  | cons f fs ih =>
    intro x y hx hy
    rw [runFrom_cons, movements_eq f x y hx hy]
    rw [ih _ _ (wrapInt_inRange _) (wrapInt_inRange _)]
    simp only [sumDeltas_cons, wrapInt_wrapInt_add, add_assoc]

theorem offsetAfter_eq (fs : List FrameInput) :
    offsetAfter fs = (wrapInt (sumDeltas fs).1, wrapInt (sumDeltas fs).2) := by
  unfold offsetAfter
  rw [runFrom_eq fs 0 0 inIntRange_zero inIntRange_zero]
  simp

theorem sumDeltas_bound (fs : List FrameInput) :
    (-(2 * (fs.length : Int)) ≤ (sumDeltas fs).1 ∧ (sumDeltas fs).1 ≤ 2 * (fs.length : Int)) ∧
    (-(2 * (fs.length : Int)) ≤ (sumDeltas fs).2 ∧ (sumDeltas fs).2 ≤ 2 * (fs.length : Int)) := by
  induction fs with
  | nil => simp [sumDeltas_nil]
  | cons f fs ih =>
    have h1 := frameDelta_fst_bound f
    have h2 := frameDelta_snd_bound f
    simp only [sumDeltas_cons, List.length_cons, Nat.cast_add, Nat.cast_one]
    omega

theorem sumDeltas_replicate (n : Nat) (f : FrameInput) :
    sumDeltas (List.replicate n f) = ((n : Int) * (frameDelta f).1, (n : Int) * (frameDelta f).2) := by
  induction n with
  | zero => simp [sumDeltas_nil]
  | succ n ih =>
    rw [List.replicate_succ, sumDeltas_cons, ih]
    simp only [Nat.cast_add, Nat.cast_one, Prod.mk.injEq]
    constructor <;> ring

theorem frameDelta_rightFrame : frameDelta rightFrame = (2, 0) := by
  decide

theorem offsetAfter_inRange (fs : List FrameInput) :
    InIntRange (offsetAfter fs).1 ∧ InIntRange (offsetAfter fs).2 := by
  rw [offsetAfter_eq]
  exact ⟨wrapInt_inRange _, wrapInt_inRange _⟩

theorem sumDeltas_even (fs : List FrameInput) :
    (sumDeltas fs).1 % 2 = 0 ∧ (sumDeltas fs).2 % 2 = 0 := by
  induction fs with
  | nil => simp [sumDeltas_nil]
  | cons f fs ih =>
    simp only [sumDeltas_cons, frameDelta_fst, frameDelta_snd]
    cases f.left <;> cases f.right <;> cases f.up <;> cases f.down <;> simp <;> omega

theorem checkedInt_eq_some {v w : Int} (h : checkedInt v = some w) : w = v ∧ InIntRange v := by
  unfold checkedInt at h
  split at h
  · rename_i hr
    exact ⟨(Option.some.inj h).symm, hr⟩
  · cases h

theorem checkedInt_of_inRange {v : Int} (h : InIntRange v) : checkedInt v = some v := by
  unfold checkedInt
  exact if_pos h

theorem movementsChecked_some (f : FrameInput) (x y : Int) (p : Int × Int)
    (hx : InIntRange x) (hy : InIntRange y) (h : movementsChecked f x y = some p) :
    p = (x + (frameDelta f).1, y + (frameDelta f).2) ∧ InIntRange p.1 ∧ InIntRange p.2 ∧
    movements f x y = p := by
  rw [frameDelta_fst, frameDelta_snd]
  unfold movementsChecked at h
  simp only [Option.bind_eq_some] at h
  obtain ⟨x1, h1, x2, h2, y1, h3, y2, h4, h5⟩ := h
  have e := (Option.some.inj h5).symm
  subst e
  have a1 : x1 = x + (0 - if f.left then 2 else 0) ∧ InIntRange x1 ∧
      x1 = (if f.left then wrapInt (x - 2) else x) := by
    cases hl : f.left
    · rw [hl] at h1
      have := Option.some.inj h1
      subst this
      exact ⟨by simp, hx, by simp⟩
    · rw [hl] at h1
      have hc := checkedInt_eq_some h1
      exact ⟨by simp [hc.1]; ring, by rw [hc.1]; exact hc.2,
        by simp [hc.1, wrapInt_of_inRange hc.2]⟩
  have a2 : x2 = x1 + (if f.right then 2 else 0) ∧ InIntRange x2 ∧
      x2 = (if f.right then wrapInt (x1 + 2) else x1) := by
    cases hl : f.right
    · rw [hl] at h2
      have := Option.some.inj h2
      subst this
      exact ⟨by simp, a1.2.1, by simp⟩
    · rw [hl] at h2
      have hc := checkedInt_eq_some h2
      exact ⟨by simp [hc.1], by rw [hc.1]; exact hc.2,
        by simp [hc.1, wrapInt_of_inRange hc.2]⟩
  have a3 : y1 = y + (if f.up then 2 else 0) ∧ InIntRange y1 ∧
      y1 = (if f.up then wrapInt (y + 2) else y) := by
    cases hl : f.up
    · rw [hl] at h3
      have := Option.some.inj h3
      subst this
      exact ⟨by simp, hy, by simp⟩
    · rw [hl] at h3
      have hc := checkedInt_eq_some h3
      exact ⟨by simp [hc.1], by rw [hc.1]; exact hc.2,
        by simp [hc.1, wrapInt_of_inRange hc.2]⟩
  have a4 : y2 = y1 + (0 - if f.down then 2 else 0) ∧ InIntRange y2 ∧
      y2 = (if f.down then wrapInt (y1 - 2) else y1) := by
    cases hl : f.down
    · rw [hl] at h4
      have := Option.some.inj h4
      subst this
      exact ⟨by simp, a3.2.1, by simp⟩
    · rw [hl] at h4
      have hc := checkedInt_eq_some h4
      exact ⟨by simp [hc.1]; ring, by rw [hc.1]; exact hc.2,
        by simp [hc.1, wrapInt_of_inRange hc.2]⟩
  refine ⟨?_, a2.2.1, a4.2.1, ?_⟩
  · rw [Prod.mk.injEq]
    constructor
    · rw [a2.1, a1.1]; ring
    · rw [a4.1, a3.1]; ring
  · unfold movements
    simp only
    rw [← a1.2.2, ← a2.2.2, ← a3.2.2, ← a4.2.2]

theorem movementsChecked_of_room (f : FrameInput) (x y : Int)
    (hx1 : -INT_HALF + 2 ≤ x) (hx2 : x + 2 < INT_HALF)
    (hy1 : -INT_HALF + 2 ≤ y) (hy2 : y + 2 < INT_HALF) :
    movementsChecked f x y = some (x + (frameDelta f).1, y + (frameDelta f).2) := by
  rw [frameDelta_fst, frameDelta_snd]
  unfold INT_HALF at hx1 hx2 hy1 hy2
  have r1 : ∀ v : Int, -2147483648 ≤ v → v < 2147483648 → checkedInt v = some v :=
    fun v h1 h2 => checkedInt_of_inRange ⟨h1, h2⟩
  unfold movementsChecked
  cases f.left <;> cases f.right <;> cases f.up <;> cases f.down <;>
    simp [r1 (x - 2) (by omega) (by omega), r1 (x + 2) (by omega) (by omega),
      r1 (x - 2 + 2) (by omega) (by omega), r1 (y + 2) (by omega) (by omega),
      r1 (y - 2) (by omega) (by omega), r1 (y + 2 - 2) (by omega) (by omega),
      r1 x (by omega) (by omega), r1 y (by omega) (by omega)] <;> omega

theorem movementsChecked_noArrows (f : FrameInput) (x y : Int) (h : f.noArrows) :
    movementsChecked f x y = some (x, y) := by
  simp [movementsChecked, h.1, h.2.1, h.2.2.1, h.2.2.2]

theorem runFromChecked_some (fs : List FrameInput) :
    ∀ (x y : Int) (r : Int × Int), InIntRange x → InIntRange y →
      runFromChecked fs x y = some r →
      r = (x + (sumDeltas fs).1, y + (sumDeltas fs).2) ∧ InIntRange r.1 ∧ InIntRange r.2 ∧
      runFrom fs x y = r := by
  induction fs with
  | nil =>
    intro x y r hx hy h
    have e := (Option.some.inj h).symm
    subst e
    exact ⟨by simp [sumDeltas_nil], hx, hy, rfl⟩
  | cons f fs ih =>
    intro x y r hx hy h
    simp only [runFromChecked, Option.bind_eq_some] at h
    obtain ⟨p, hp, hr⟩ := h
    have hm := movementsChecked_some f x y p hx hy hp
    have hi := ih p.1 p.2 r hm.2.1 hm.2.2.1 hr
    refine ⟨?_, hi.2.1, hi.2.2.1, ?_⟩
    · rw [hi.1, hm.1, sumDeltas_cons]
      simp only [add_assoc]
    · rw [runFrom_cons, hm.2.2.2]
      exact hi.2.2.2

theorem runFromChecked_of_room (fs : List FrameInput) :
    ∀ x y : Int,
      -INT_HALF + 2 * (fs.length : Int) ≤ x → x + 2 * (fs.length : Int) < INT_HALF →
      -INT_HALF + 2 * (fs.length : Int) ≤ y → y + 2 * (fs.length : Int) < INT_HALF →
      runFromChecked fs x y = some (x + (sumDeltas fs).1, y + (sumDeltas fs).2) := by
  induction fs with
  | nil => intro x y _ _ _ _; simp [runFromChecked, sumDeltas_nil]
  | cons f fs ih =>
    intro x y hx1 hx2 hy1 hy2
    simp only [List.length_cons, Nat.cast_add, Nat.cast_one] at hx1 hx2 hy1 hy2
    have b1 := frameDelta_fst_bound f
    have b2 := frameDelta_snd_bound f
    have hm := movementsChecked_of_room f x y (by omega) (by omega) (by omega) (by omega)
    simp only [runFromChecked, hm, Option.some_bind]
    rw [ih _ _ (by omega) (by omega) (by omega) (by omega), sumDeltas_cons]
    simp only [add_assoc]

theorem runFromChecked_append (fs gs : List FrameInput) :
    ∀ x y : Int, runFromChecked (fs ++ gs) x y =
      (runFromChecked fs x y).bind fun p => runFromChecked gs p.1 p.2 := by
  induction fs with
  | nil => intro x y; simp [runFromChecked]
  | cons f fs ih =>
    intro x y
    simp only [List.cons_append, runFromChecked]
    cases movementsChecked f x y with
    | none => rfl
    | some p => simp only [Option.some_bind]; exact ih p.1 p.2

theorem offsetAfterChecked_of_short (fs : List FrameInput) (h : fs.length < 1073741824) :
    offsetAfterChecked fs = some (sumDeltas fs) := by
  have hr := runFromChecked_of_room fs 0 0
    (by unfold INT_HALF; omega) (by unfold INT_HALF; omega)
    (by unfold INT_HALF; omega) (by unfold INT_HALF; omega)
  unfold offsetAfterChecked
  rw [hr]
  simp

theorem offsetAfterChecked_some (fs : List FrameInput) (r : Int × Int)
    (h : offsetAfterChecked fs = some r) :
    r = sumDeltas fs ∧ InIntRange r.1 ∧ InIntRange r.2 ∧ offsetAfter fs = r := by
  have hs := runFromChecked_some fs 0 0 r inIntRange_zero inIntRange_zero h
  refine ⟨?_, hs.2.1, hs.2.2.1, hs.2.2.2⟩
  rw [hs.1]
  simp

theorem offsetAfterChecked_none_of_sum (fs : List FrameInput)
    (h : ¬ InIntRange (sumDeltas fs).1) : offsetAfterChecked fs = none := by
  cases hc : offsetAfterChecked fs with
  | none => rfl
  | some r =>
    have hs := offsetAfterChecked_some fs r hc
    rw [hs.1] at hs
    exact absurd hs.2.1 h

/-! ## One frame -/

theorem pollFold_spec (rs : List (Int × Int)) :
    ∀ (g : GLState) (t : List Call),
      let r := rs.foldl
        (fun (acc : GLState × List Call) (wh : Int × Int) =>
          ((framebuffer_size_callback wh.1 wh.2 acc.1).1,
            acc.2 ++ (framebuffer_size_callback wh.1 wh.2 acc.1).2))
        (g, t)
      r.2 = t ++ rs.map (fun wh => Call.glViewport 0 0 wh.1 wh.2) ∧
      r.1.shouldClose = g.shouldClose ∧
      r.1.arrayBuffer = g.arrayBuffer ∧
      r.1.elementBuffer = g.elementBuffer := by
  induction rs with
  | nil => intro g t; simp
  | cons wh rs ih =>
    intro g t
    have h := ih (framebuffer_size_callback wh.1 wh.2 g).1
      (t ++ (framebuffer_size_callback wh.1 wh.2 g).2)
    simp only [List.foldl_cons]
    refine ⟨?_, ?_, ?_, ?_⟩
    · rw [h.1]; simp [framebuffer_size_callback]
    · rw [h.2.1]; simp [framebuffer_size_callback]
    · rw [h.2.2.1]; simp [framebuffer_size_callback]
    · rw [h.2.2.2]; simp [framebuffer_size_callback]

theorem glfwPollEvents_spec (f : FrameInput) (g : GLState) :
    (glfwPollEvents f g).2 = pollCalls f ∧
    (glfwPollEvents f g).1.shouldClose = (g.shouldClose || f.osClose) ∧
    (glfwPollEvents f g).1.arrayBuffer = g.arrayBuffer ∧
    (glfwPollEvents f g).1.elementBuffer = g.elementBuffer := by
  have h := pollFold_spec f.resizes
    (if f.osClose then { g with shouldClose := true } else g) [Call.glfwPollEvents]
  unfold glfwPollEvents
  refine ⟨?_, ?_, ?_, ?_⟩
  · rw [h.1]; simp [pollCalls]
  · rw [h.2.1]; cases f.osClose <;> simp
  · rw [h.2.2.1]; cases f.osClose <;> simp
  · rw [h.2.2.2]; cases f.osClose <;> simp

theorem frameBody_xy (f : FrameInput) (x y : Int) (g : GLState) :
    (frameBody f x y g).x = (movements f x y).1 ∧ (frameBody f x y g).y = (movements f x y).2 := by
  simp [frameBody]

theorem frameBody_trace (f : FrameInput) (x y : Int) (g : GLState) :
    (frameBody f x y g).trace = bodyCalls f x y := by
  simp only [frameBody, bodyCalls, (glfwPollEvents_spec f _).1]
  cases hf : f.esc <;> simp [processInput, hf]

theorem frameBody_draw (f : FrameInput) (x y : Int) (g : GLState) :
    (frameBody f x y g).draw =
      { count := DRAW_COUNT,
        viewport := { x := (movements f x y).1, y := (movements f x y).2,
                      width := SRC_WIDTH, height := SRC_HEIGHT },
        vertexData := g.arrayBuffer, indexData := g.elementBuffer } := by
  cases hf : f.esc <;> simp [frameBody, processInput, hf]

theorem frameBody_shouldClose (f : FrameInput) (x y : Int) (g : GLState) :
    (frameBody f x y g).gl.shouldClose = (g.shouldClose || f.esc || f.osClose) := by
  simp only [frameBody, (glfwPollEvents_spec f _).2.1]
  cases hf : f.esc <;> simp [processInput, hf]

theorem frameBody_buffers (f : FrameInput) (x y : Int) (g : GLState) :
    (frameBody f x y g).gl.arrayBuffer = g.arrayBuffer ∧
    (frameBody f x y g).gl.elementBuffer = g.elementBuffer := by
  simp only [frameBody, (glfwPollEvents_spec f _).2.2.1, (glfwPollEvents_spec f _).2.2.2]
  cases hf : f.esc <;> simp [processInput, hf]

/-! ## The frame loop -/

theorem frameLoop_nil (x y : Int) (g : GLState) (h : g.shouldClose = false) :
    frameLoop [] x y g = { exited := false, x := x, y := y, gl := g, trace := [], drawn := [] } := by
  simp [frameLoop, h]

theorem frameLoop_closed (fs : List FrameInput) (x y : Int) (g : GLState)
    (h : g.shouldClose = true) :
    frameLoop fs x y g =
      { exited := true, x := x, y := y, gl := g,
        trace := [Call.glfwWindowShouldClose], drawn := [] } := by
  cases fs <;> simp [frameLoop, h]

theorem frameLoop_cons (f : FrameInput) (fs : List FrameInput) (x y : Int) (g : GLState)
    (h : g.shouldClose = false) :
    frameLoop (f :: fs) x y g =
      { frameLoop fs (frameBody f x y g).x (frameBody f x y g).y (frameBody f x y g).gl with
        trace := Call.glfwWindowShouldClose ::
          ((frameBody f x y g).trace ++
            (frameLoop fs (frameBody f x y g).x (frameBody f x y g).y (frameBody f x y g).gl).trace),
        drawn := (frameBody f x y g).draw ::
          (frameLoop fs (frameBody f x y g).x (frameBody f x y g).y (frameBody f x y g).gl).drawn } := by
  simp [frameLoop, h]

theorem frameLoop_open (pre : List FrameInput) :
    ∀ (rest : List FrameInput) (x y : Int) (g : GLState),
      g.shouldClose = false → (∀ f ∈ pre, f.keepsOpen) →
      ∃ g1 : GLState, g1.shouldClose = false ∧ g1.arrayBuffer = g.arrayBuffer ∧
        g1.elementBuffer = g.elementBuffer ∧
        frameLoop (pre ++ rest) x y g =
          { frameLoop rest (runFrom pre x y).1 (runFrom pre x y).2 g1 with
            trace := openCalls pre x y ++
              (frameLoop rest (runFrom pre x y).1 (runFrom pre x y).2 g1).trace,
            drawn := openDraws g.arrayBuffer g.elementBuffer pre x y ++
              (frameLoop rest (runFrom pre x y).1 (runFrom pre x y).2 g1).drawn } := by
  induction pre with
  | nil =>
    intro rest x y g hg _
    exact ⟨g, hg, rfl, rfl, by simp [runFrom_nil, openCalls, openDraws]⟩
  | cons f pre ih =>
    intro rest x y g hg hpre
    have hf : f.keepsOpen := hpre f (List.mem_cons_self _ _)
    have hb : (frameBody f x y g).gl.shouldClose = false := by
      rw [frameBody_shouldClose, hg, hf.1, hf.2]; rfl
    obtain ⟨g1, h1, h2, h3, h4⟩ := ih rest (frameBody f x y g).x (frameBody f x y g).y
      (frameBody f x y g).gl hb (fun a ha => hpre a (List.mem_cons_of_mem _ ha))
    refine ⟨g1, h1, ?_, ?_, ?_⟩
    · rw [h2, (frameBody_buffers f x y g).1]
    · rw [h3, (frameBody_buffers f x y g).2]
    · rw [List.cons_append, frameLoop_cons f (pre ++ rest) x y g hg, h4]
      simp only [frameBody_trace, frameBody_draw, (frameBody_xy f x y g).1,
        (frameBody_xy f x y g).2, (frameBody_buffers f x y g).1, (frameBody_buffers f x y g).2,
        runFrom_cons, openCalls, openDraws, List.append_assoc, List.cons_append]

theorem frameLoop_closing (f : FrameInput) (rest : List FrameInput) (x y : Int) (g : GLState)
    (hg : g.shouldClose = false) (hf : f.esc = true ∨ f.osClose = true) :
    frameLoop (f :: rest) x y g =
      { exited := true, x := (movements f x y).1, y := (movements f x y).2,
        gl := (frameBody f x y g).gl,
        trace := Call.glfwWindowShouldClose :: (bodyCalls f x y ++ [Call.glfwWindowShouldClose]),
        drawn := [(frameBody f x y g).draw] } := by
  have hb : (frameBody f x y g).gl.shouldClose = true := by
    rw [frameBody_shouldClose, hg]
    rcases hf with h | h <;> simp [h]
  rw [frameLoop_cons f rest x y g hg, frameLoop_closed _ _ _ _ hb]
  simp [frameBody_trace, (frameBody_xy f x y g).1, (frameBody_xy f x y g).2]

theorem openDraws_length (vb : List ℚ) (eb : List Nat) (fs : List FrameInput) :
    ∀ x y : Int, (openDraws vb eb fs x y).length = fs.length := by
  induction fs with
  | nil => intro x y; rfl
  | cons f fs ih => intro x y; simp [openDraws, ih]

theorem openDraws_getElem (vb : List ℚ) (eb : List Nat) (fs : List FrameInput) :
    ∀ (x y : Int) (i : Nat) (d : DrawRecord), (openDraws vb eb fs x y)[i]? = some d →
      d = { count := DRAW_COUNT,
            viewport := { x := (runFrom (fs.take (i + 1)) x y).1,
                          y := (runFrom (fs.take (i + 1)) x y).2,
                          width := SRC_WIDTH, height := SRC_HEIGHT },
            vertexData := vb, indexData := eb } := by
  induction fs with
  | nil => intro x y i d h; simp [openDraws] at h
  | cons f fs ih =>
    intro x y i d h
    cases i with
    | zero =>
      simp only [openDraws, List.getElem?_cons_zero, Option.some.injEq] at h
      rw [← h]
      simp [runFrom_cons, runFrom_nil]
    | succ i =>
      simp only [openDraws, List.getElem?_cons_succ] at h
      rw [ih _ _ i d h]
      simp [runFrom_cons]

theorem frameLoop_drawn (fs : List FrameInput) :
    ∀ (x y : Int) (g : GLState), ∃ n : Nat, n ≤ fs.length ∧
      (frameLoop fs x y g).drawn = openDraws g.arrayBuffer g.elementBuffer (fs.take n) x y ∧
      (frameLoop fs x y g).x = (runFrom (fs.take n) x y).1 ∧
      (frameLoop fs x y g).y = (runFrom (fs.take n) x y).2 := by
  induction fs with
  | nil =>
    intro x y g
    refine ⟨0, le_refl _, ?_, ?_, ?_⟩ <;> cases hg : g.shouldClose <;>
      simp [frameLoop, hg, openDraws, runFrom_nil]
  | cons f fs ih =>
    intro x y g
    cases hg : g.shouldClose with
    | true =>
      refine ⟨0, Nat.zero_le _, ?_, ?_, ?_⟩ <;>
        simp [frameLoop_closed _ _ _ _ hg, openDraws, runFrom_nil]
    | false =>
      obtain ⟨n, hn, h1, h2, h3⟩ :=
        ih (frameBody f x y g).x (frameBody f x y g).y (frameBody f x y g).gl
      have e1 := (frameBody_xy f x y g).1
      have e2 := (frameBody_xy f x y g).2
      have b1 := (frameBody_buffers f x y g).1
      have b2 := (frameBody_buffers f x y g).2
      rw [e1, e2] at h2 h3
      rw [e1, e2, b1, b2] at h1
      refine ⟨n + 1, by simpa using hn, ?_, ?_, ?_⟩
      · rw [frameLoop_cons f fs x y g hg]
        simp only [List.take_succ_cons, openDraws, frameBody_draw, e1, e2, h1]
      · rw [frameLoop_cons f fs x y g hg]
        simp only [List.take_succ_cons, runFrom_cons, e1, e2, h2]
      · rw [frameLoop_cons f fs x y g hg]
        simp only [List.take_succ_cons, runFrom_cons, e1, e2, h3]

theorem frameLoop_exits (fs : List FrameInput) :
    ∀ (x y : Int) (g : GLState),
      (g.shouldClose = true ∨ ∃ f ∈ fs, f.esc = true ∨ f.osClose = true) →
      (frameLoop fs x y g).exited = true := by
  induction fs with
  | nil =>
    intro x y g h
    rcases h with h | ⟨f, hf, _⟩
    · rw [frameLoop_closed _ _ _ _ h]
    · simp at hf
  | cons f fs ih =>
    intro x y g h
    cases hg : g.shouldClose with
    | true => rw [frameLoop_closed _ _ _ _ hg]
    | false =>
      rw [frameLoop_cons f fs x y g hg]
      show (frameLoop fs (frameBody f x y g).x (frameBody f x y g).y (frameBody f x y g).gl).exited
        = true
      apply ih
      rw [frameBody_shouldClose, hg]
      rcases h with h | ⟨a, ha, hc⟩
      · rw [hg] at h; cases h
      · rcases List.mem_cons.mp ha with rfl | ha
        · left; rcases hc with hc | hc <;> simp [hc]
        · right; exact ⟨a, ha, hc⟩

theorem runFrom_noArrows (fs : List FrameInput) (h : ∀ f ∈ fs, f.noArrows) :
    ∀ x y : Int, runFrom fs x y = (x, y) := by
  induction fs with
  | nil => intro x y; rfl
  | cons f fs ih =>
    intro x y
    have hf := h f (List.mem_cons_self _ _)
    rw [runFrom_cons]
    have hm : movements f x y = (x, y) := by
      simp [movements, hf.1, hf.2.1, hf.2.2.1, hf.2.2.2]
    rw [hm]
    exact ih (fun a ha => h a (List.mem_cons_of_mem _ ha)) x y

theorem runFrom_rightOnly (fs : List FrameInput) (h : ∀ f ∈ fs, f.rightOnly) :
    ∀ x y : Int, InIntRange x →
      runFrom fs x y = (wrapInt (x + 2 * (fs.length : Int)), y) := by
  induction fs with
  | nil => intro x y hx; simp [runFrom_nil, wrapInt_of_inRange hx]
  | cons f fs ih =>
    intro x y hx
    have hf := h f (List.mem_cons_self _ _)
    rw [runFrom_cons]
    have hm : movements f x y = (wrapInt (x + 2), y) := by
      simp [movements, hf.2.1, hf.2.2.1, hf.2.2.2.1, hf.2.2.2.2]
    rw [hm, ih (fun a ha => h a (List.mem_cons_of_mem _ ha)) _ _ (wrapInt_inRange _),
      wrapInt_wrapInt_add]
    simp only [List.length_cons, Nat.cast_add, Nat.cast_one]
    congr 2
    ring

theorem main_ok (env : Env) (hw : env.windowOk = true) (hl : env.loaderOk = true) :
    main env =
      if (frameLoop env.frames 0 0 (stateAtLoopEntry env)).exited then
        { exit := some 0,
          x := (frameLoop env.frames 0 0 (stateAtLoopEntry env)).x,
          y := (frameLoop env.frames 0 0 (stateAtLoopEntry env)).y,
          gl := (frameLoop env.frames 0 0 (stateAtLoopEntry env)).gl,
          trace := bootstrapCalls ++ contextCalls ++ shaderCalls env ++ geometryCalls ++
            (frameLoop env.frames 0 0 (stateAtLoopEntry env)).trace ++ shutdownCalls,
          drawn := (frameLoop env.frames 0 0 (stateAtLoopEntry env)).drawn }
      else
        { exit := none,
          x := (frameLoop env.frames 0 0 (stateAtLoopEntry env)).x,
          y := (frameLoop env.frames 0 0 (stateAtLoopEntry env)).y,
          gl := (frameLoop env.frames 0 0 (stateAtLoopEntry env)).gl,
          trace := bootstrapCalls ++ contextCalls ++ shaderCalls env ++ geometryCalls ++
            (frameLoop env.frames 0 0 (stateAtLoopEntry env)).trace,
          drawn := (frameLoop env.frames 0 0 (stateAtLoopEntry env)).drawn } := by
  simp [main, hw, hl]

/-- The run over frames that keep the window open is still running, has
executed one body per frame and has moved the offset by `runFrom`. -/
theorem main_open (env : Env) (hw : env.windowOk = true) (hl : env.loaderOk = true)
    (h : ∀ f ∈ env.frames, f.keepsOpen) :
    (main env).exit = none ∧ (main env).gl.shouldClose = false ∧
    (main env).drawn.length = env.frames.length ∧
    (main env).x = (runFrom env.frames 0 0).1 ∧ (main env).y = (runFrom env.frames 0 0).2 := by
  obtain ⟨g1, h1, _, _, h4⟩ :=
    frameLoop_open env.frames [] 0 0 (stateAtLoopEntry env) rfl h
  rw [List.append_nil, frameLoop_nil _ _ _ h1] at h4
  rw [main_ok env hw hl, h4]
  simp [h1, openDraws_length]

/-- The run over frames that keep the window open followed by a frame with
Escape pressed: it ends with exit code 0 after one more body. -/
theorem main_open_then_escape (env : Env) (pre rest : List FrameInput) (fe : FrameInput)
    (hw : env.windowOk = true) (hl : env.loaderOk = true)
    (hfr : env.frames = pre ++ fe :: rest) (hpre : ∀ f ∈ pre, f.keepsOpen)
    (hfe : fe.esc = true) :
    (main env).exit = some 0 ∧ (main env).gl.shouldClose = true ∧
    (main env).drawn.length = pre.length + 1 ∧
    (main env).x = (runFrom (pre ++ [fe]) 0 0).1 ∧
    (main env).y = (runFrom (pre ++ [fe]) 0 0).2 ∧
    (main env).trace =
      bootstrapCalls ++ contextCalls ++ shaderCalls env ++ geometryCalls ++
        openCalls pre 0 0 ++
        Call.glfwWindowShouldClose ::
          (bodyCalls fe (runFrom pre 0 0).1 (runFrom pre 0 0).2 ++
            [Call.glfwWindowShouldClose]) ++ shutdownCalls := by
  obtain ⟨g1, h1, _, _, h4⟩ :=
    frameLoop_open pre (fe :: rest) 0 0 (stateAtLoopEntry env) rfl hpre
  rw [frameLoop_closing fe rest _ _ g1 h1 (Or.inl hfe)] at h4
  have hc : (frameBody fe (runFrom pre 0 0).1 (runFrom pre 0 0).2 g1).gl.shouldClose = true := by
    rw [frameBody_shouldClose, hfe]; simp
  rw [main_ok env hw hl, hfr, h4]
  simp [hc, openDraws_length, runFrom_append, runFrom_cons, runFrom_nil]

/-! ## The claims -/

/-- C1, as stated, fails: with Right held for 1073741824 frames the sum of the
deltas is 2147483648, which no `int` holds.  The run has no defined offset (an
`x += speed` overflows), and the `int` the offset holds, whichever it is, is
not that sum. -/
theorem C1_offset_is_not_unbounded :
    sumDeltas (List.replicate 1073741824 rightFrame) = (2147483648, 0) ∧
    ¬ InIntRange (sumDeltas (List.replicate 1073741824 rightFrame)).1 ∧
    offsetAfterChecked (List.replicate 1073741824 rightFrame) = none ∧
    offsetAfter (List.replicate 1073741824 rightFrame) ≠
      sumDeltas (List.replicate 1073741824 rightFrame) := by
  have h2 := sumDeltas_replicate 1073741824 rightFrame
  rw [frameDelta_rightFrame] at h2
  have h3 : sumDeltas (List.replicate 1073741824 rightFrame) = (2147483648, 0) := by
    rw [h2]; norm_num
  have h4 : ¬ InIntRange (sumDeltas (List.replicate 1073741824 rightFrame)).1 := by
    rw [h3]; decide
  refine ⟨h3, h4, offsetAfterChecked_none_of_sum _ h4, ?_⟩
  intro he
  have hr := (offsetAfter_inRange (List.replicate 1073741824 rightFrame)).1
  rw [he] at hr
  exact h4 hr

/-- C1, amended: for every sequence of fewer than 2^30 frames (more generally,
for every sequence of frames during which no `+=` / `-=` of `movements`
overflows the `int` offset), running `movements` once per frame from `(0,0)`
yields exactly the sum of the per-key per-frame deltas (Left `(-2,0)`, Right
`(2,0)`, Up `(0,2)`, Down `(0,-2)`), with no clamping; this is the offset `main`
holds after those frames when none of them asks the window to close. -/
theorem C1_offset_is_sum_of_deltas_in_range (fs : List FrameInput) :
    (fs.length < 1073741824 → offsetAfterChecked fs = some (sumDeltas fs)) ∧
    (∀ r : Int × Int, offsetAfterChecked fs = some r →
      r = sumDeltas fs ∧ offsetAfter fs = r) ∧
    (∀ (env : Env) (r : Int × Int), env.windowOk = true → env.loaderOk = true →
      env.frames = fs → (∀ f ∈ fs, f.keepsOpen) → offsetAfterChecked fs = some r →
      (main env).x = r.1 ∧ (main env).y = r.2) := by
  refine ⟨offsetAfterChecked_of_short fs, ?_, ?_⟩
  · intro r hr
    have hs := offsetAfterChecked_some fs r hr
    exact ⟨hs.1, hs.2.2.2⟩
  · intro env r hw hl hfr ho hr
    have hs := offsetAfterChecked_some fs r hr
    have hm := main_open env hw hl (by rw [hfr]; exact ho)
    rw [hfr] at hm
    have e : runFrom fs 0 0 = r := hs.2.2.2
    rw [e] at hm
    exact ⟨hm.2.2.2.1, hm.2.2.2.2⟩

theorem C1_offset_is_sum_of_deltas_in_range_witness :
    [leftUpFrame, leftUpFrame, rightFrame].length < 1073741824 ∧
    sumDeltas [leftUpFrame, leftUpFrame, rightFrame] = (-2, 4) ∧
    offsetAfterChecked [leftUpFrame, leftUpFrame, rightFrame] = some (-2, 4) :=
  ⟨by decide, by decide,
   ((C1_offset_is_sum_of_deltas_in_range [leftUpFrame, leftUpFrame, rightFrame]).1
      (by decide)).trans (by decide)⟩

/-- C10, as stated, fails: the offset `(2147483646, 0)` is reached, without any
overflow, by holding Right for 1073741823 frames; one more frame with Right
held has no defined result, since `x += speed` overflows there: no `int` is
`2147483646 + 2`. -/
theorem C10_step_is_not_always_two :
    offsetAfterChecked (List.replicate 1073741823 rightFrame) = some (2147483646, 0) ∧
    movementsChecked rightFrame 2147483646 0 = none ∧
    ¬ InIntRange (2147483646 + 2) ∧
    (movements rightFrame 2147483646 0).1 ≠ 2147483646 + 2 := by
  have h1 := offsetAfterChecked_of_short (List.replicate 1073741823 rightFrame)
    (by rw [List.length_replicate]; decide)
  rw [sumDeltas_replicate, frameDelta_rightFrame] at h1
  have h2 : (((1073741823 : Nat) : Int) * (2, 0).1, ((1073741823 : Nat) : Int) * (2, 0).2)
      = ((2147483646 : Int), (0 : Int)) := by norm_num
  rw [h2] at h1
  exact ⟨h1, by decide, by decide, by decide⟩

/-- C10, amended: in every state `(x, y)` reachable from `(0,0)` by a sequence
of frames none of which overflows the `int` offset, both coordinates are even;
a single further frame that does not overflow changes each coordinate by
exactly -2, 0 or +2, and by 0 when both opposite keys of its axis, or neither,
are held.  A frame does not overflow when both coordinates are at least 2 away
from both ends of the `int` range, which is the case throughout the first
2^30 - 1 frames. -/
theorem C10_parity_and_step (fs : List FrameInput) (f : FrameInput) (x y : Int)
    (h : offsetAfterChecked fs = some (x, y)) :
    (x % 2 = 0 ∧ y % 2 = 0) ∧
    (∀ x2 y2 : Int, movementsChecked f x y = some (x2, y2) →
      (x2 - x = -2 ∨ x2 - x = 0 ∨ x2 - x = 2) ∧
      (y2 - y = -2 ∨ y2 - y = 0 ∨ y2 - y = 2) ∧
      (f.left = f.right → x2 = x) ∧ (f.up = f.down → y2 = y) ∧
      movements f x y = (x2, y2)) ∧
    (-INT_HALF + 2 ≤ x → x + 2 < INT_HALF → -INT_HALF + 2 ≤ y → y + 2 < INT_HALF →
      movementsChecked f x y = some (x + (frameDelta f).1, y + (frameDelta f).2)) ∧
    (fs.length + 1 < 1073741824 →
      movementsChecked f x y = some (x + (frameDelta f).1, y + (frameDelta f).2)) := by
  have hs := offsetAfterChecked_some fs (x, y) h
  have he := sumDeltas_even fs
  have hb := sumDeltas_bound fs
  rw [← hs.1] at he hb
  refine ⟨he, ?_, ?_, ?_⟩
  · intro x2 y2 hm
    have hc := movementsChecked_some f x y (x2, y2) hs.2.1 hs.2.2.1 hm
    have e1 : x2 = x + (frameDelta f).1 := congrArg Prod.fst hc.1
    have e2 : y2 = y + (frameDelta f).2 := congrArg Prod.snd hc.1
    rw [frameDelta_fst] at e1
    rw [frameDelta_snd] at e2
    refine ⟨?_, ?_, ?_, ?_, hc.2.2.2⟩
    · rw [e1]; cases f.left <;> cases f.right <;> simp
    · rw [e2]; cases f.up <;> cases f.down <;> simp
    · intro hk; rw [e1, hk]; simp
    · intro hk; rw [e2, hk]; simp
  · intro a1 a2 a3 a4
    exact movementsChecked_of_room f x y a1 a2 a3 a4
  · intro hlen
    simp only at hb
    apply movementsChecked_of_room f x y <;> unfold INT_HALF <;> omega

theorem C10_parity_and_step_witness :
    offsetAfterChecked [rightFrame, leftUpFrame, rightFrame] = some (2, 2) ∧
    (2 : Int) % 2 = 0 ∧
    movementsChecked leftUpFrame 2 2 = some (0, 4) ∧
    ((0 : Int) - 2 = -2 ∨ (0 : Int) - 2 = 0 ∨ (0 : Int) - 2 = 2) := by
  have h : offsetAfterChecked [rightFrame, leftUpFrame, rightFrame] = some (2, 2) := by decide
  have w := C10_parity_and_step [rightFrame, leftUpFrame, rightFrame] leftUpFrame 2 2 h
  have hm : movementsChecked leftUpFrame 2 2 = some (0, 4) := by decide
  exact ⟨h, w.1.1, hm, (w.2.1 0 4 hm).1⟩

/-- C4: for every N, if no key is pressed in any of the first N frames and the
OS does not request close (window resizes may happen), then after those N
frames the offset is still `(0,0)`, the close flag is still unset and the loop
is still running, having executed N bodies. -/
theorem C4_idle_frames_change_nothing (env : Env)
    (hw : env.windowOk = true) (hl : env.loaderOk = true)
    (h : ∀ f ∈ env.frames, f.esc = false ∧ f.noArrows ∧ f.osClose = false) :
    (main env).x = 0 ∧ (main env).y = 0 ∧ (main env).gl.shouldClose = false ∧
    (main env).exit = none ∧ (main env).drawn.length = env.frames.length := by
  have ho := main_open env hw hl (fun f hf => ⟨(h f hf).1, (h f hf).2.2⟩)
  have hr := runFrom_noArrows env.frames (fun f hf => (h f hf).2.1) 0 0
  rw [hr] at ho
  exact ⟨ho.2.2.2.1, ho.2.2.2.2, ho.2.1, ho.1, ho.2.2.1⟩

theorem C4_idle_frames_change_nothing_witness :
    (main (goodEnv (List.replicate 10 idleFrame))).x = 0 ∧
    (main (goodEnv (List.replicate 10 idleFrame))).y = 0 ∧
    (main (goodEnv (List.replicate 10 idleFrame))).gl.shouldClose = false ∧
    (main (goodEnv (List.replicate 10 idleFrame))).exit = none ∧
    (main (goodEnv (List.replicate 10 idleFrame))).drawn.length = 10 :=
  C4_idle_frames_change_nothing (goodEnv (List.replicate 10 idleFrame)) rfl rfl
    (by
      intro f hf
      have e : f = idleFrame := List.eq_of_mem_replicate hf
      rw [e]
      exact ⟨rfl, ⟨rfl, rfl, rfl, rfl⟩, rfl⟩)

theorem rightOnly_keepsOpen (pre : List FrameInput)
    (hpre : ∀ f ∈ pre, f.rightOnly ∧ f.osClose = false) : ∀ f ∈ pre, f.keepsOpen :=
  fun f hf => ⟨(hpre f hf).1.1, (hpre f hf).2⟩

theorem runFrom_right_then_escape (pre : List FrameInput) (fe : FrameInput)
    (hpre : ∀ f ∈ pre, f.rightOnly ∧ f.osClose = false) (hfe : fe.noArrows) :
    runFrom (pre ++ [fe]) 0 0 = (wrapInt (2 * (pre.length : Int)), 0) := by
  rw [runFrom_append, runFrom_rightOnly pre (fun f hf => (hpre f hf).1) 0 0 inIntRange_zero,
    runFrom_noArrows [fe] (by intro f hf; rw [List.mem_singleton.mp hf]; exact hfe)]
  simp

/-- C3, as stated, fails for k = 1073741824: `(2k, 0) = (2147483648, 0)` is not
a pair of `int`s, the run has no defined offset (the last `x += speed`
overflows), and the `int` that `x` holds, whichever it is, is not `2k`. -/
theorem C3_offset_fails_for_large_k :
    ¬ InIntRange (2 * 1073741824) ∧
    offsetAfterChecked (List.replicate 1073741824 rightFrame ++ [escapeFrame]) = none ∧
    InIntRange (main (rightThenEscape 1073741824)).x ∧
    (main (rightThenEscape 1073741824)).x ≠ 2 * 1073741824 := by
  have hpre : ∀ f ∈ List.replicate 1073741824 rightFrame, f.rightOnly ∧ f.osClose = false := by
    intro f hf
    rw [List.eq_of_mem_replicate hf]
    exact ⟨⟨rfl, rfl, rfl, rfl, rfl⟩, rfl⟩
  have h := main_open_then_escape (rightThenEscape 1073741824)
    (List.replicate 1073741824 rightFrame) [] escapeFrame rfl rfl rfl
    (rightOnly_keepsOpen _ hpre) rfl
  have hx := h.2.2.2.1
  rw [runFrom_right_then_escape _ escapeFrame hpre ⟨rfl, rfl, rfl, rfl⟩] at hx
  have hr : InIntRange (main (rightThenEscape 1073741824)).x := by
    rw [hx]; exact wrapInt_inRange _
  have hn : ¬ InIntRange (2 * 1073741824) := by decide
  have h2 := sumDeltas_replicate 1073741824 rightFrame
  rw [frameDelta_rightFrame] at h2
  have h4 : ¬ InIntRange (sumDeltas (List.replicate 1073741824 rightFrame)).1 := by
    rw [h2]; norm_num; decide
  have hc := offsetAfterChecked_none_of_sum _ h4
  refine ⟨hn, ?_, hr, ?_⟩
  · unfold offsetAfterChecked at hc ⊢
    rw [runFromChecked_append, hc]
    rfl
  · intro he
    rw [he] at hr
    exact hn hr

/-- C3, amended: for every k < 2^30, if Right (and no other key) is held for
frames 1..k, Escape (and no arrow key) is pressed on frame k+1 and the OS does
not request close during the first k frames, then no `int` overflow occurs,
the offset reaches `(2k, 0)`, the close flag is unset after the first k frames
(the loop then still running) and set after frame k+1, and the run ends with
exit code 0 after exactly k+1 frame bodies, whatever input follows. -/
theorem C3_right_then_escape (env : Env) (pre rest : List FrameInput) (fe : FrameInput)
    (hw : env.windowOk = true) (hl : env.loaderOk = true)
    (hfr : env.frames = pre ++ fe :: rest)
    (hpre : ∀ f ∈ pre, f.rightOnly ∧ f.osClose = false)
    (hfe : fe.esc = true ∧ fe.noArrows)
    (hk : pre.length < 1073741824) :
    (main env).exit = some 0 ∧
    (main env).drawn.length = pre.length + 1 ∧
    (main { env with frames := pre }).gl.shouldClose = false ∧
    (main { env with frames := pre }).exit = none ∧
    (main { env with frames := pre }).drawn.length = pre.length ∧
    (main env).gl.shouldClose = true ∧
    (main env).x = 2 * (pre.length : Int) ∧ (main env).y = 0 ∧
    offsetAfterChecked (pre ++ [fe]) = some (2 * (pre.length : Int), 0) := by
  have h := main_open_then_escape env pre rest fe hw hl hfr (rightOnly_keepsOpen pre hpre) hfe.1
  have ho := main_open { env with frames := pre } hw hl (rightOnly_keepsOpen pre hpre)
  have hr := runFrom_right_then_escape pre fe hpre hfe.2
  have hwr : wrapInt (2 * (pre.length : Int)) = 2 * (pre.length : Int) := by
    apply wrapInt_of_inRange
    unfold InIntRange INT_HALF
    omega
  rw [hwr] at hr
  rw [hr] at h
  have hc : offsetAfterChecked (pre ++ [fe]) = some (sumDeltas pre) := by
    unfold offsetAfterChecked
    rw [runFromChecked_append]
    have hp := offsetAfterChecked_of_short pre hk
    unfold offsetAfterChecked at hp
    rw [hp]
    simp [runFromChecked, movementsChecked_noArrows fe _ _ hfe.2]
  have hs := (offsetAfterChecked_some _ _ hc).2.2.2
  have e : sumDeltas pre = (2 * (pre.length : Int), 0) := by
    rw [← hs]; exact hr
  rw [e] at hc
  exact ⟨h.1, h.2.2.1, ho.2.1, ho.1, ho.2.2.1, h.2.1, h.2.2.2.1, h.2.2.2.2.1, hc⟩

theorem C3_right_then_escape_witness :
    (main (rightThenEscape 5)).exit = some 0 ∧
    (main (rightThenEscape 5)).drawn.length = 6 ∧
    (main (goodEnv (List.replicate 5 rightFrame))).gl.shouldClose = false ∧
    (main (rightThenEscape 5)).gl.shouldClose = true ∧
    (main (rightThenEscape 5)).x = 10 ∧ (main (rightThenEscape 5)).y = 0 := by
  have w := C3_right_then_escape (rightThenEscape 5) (List.replicate 5 rightFrame) []
    escapeFrame rfl rfl rfl
    (by
      intro f hf
      rw [List.eq_of_mem_replicate hf]
      exact ⟨⟨rfl, rfl, rfl, rfl, rfl⟩, rfl⟩)
    ⟨rfl, ⟨rfl, rfl, rfl, rfl⟩⟩ (by decide)
  exact ⟨w.1, w.2.1, w.2.2.1, w.2.2.2.2.2.1, w.2.2.2.2.2.2.1, w.2.2.2.2.2.2.2.1⟩

/-- C2, as stated, fails: in the run whose first frame has Escape pressed, the
call that sets the close flag is followed, in the same iteration, by the draw
call and by the buffer swap. -/
theorem C2_draw_and_present_follow_the_flag :
    ∃ before after : List Call,
      (main (goodEnv [escapeFrame])).trace =
        before ++ Call.glfwSetWindowShouldClose true :: after ∧
      Call.glDrawElements DRAW_COUNT ∈ after ∧ Call.glfwSwapBuffers ∈ after :=
  ⟨(main (goodEnv [escapeFrame])).trace.take 37, (main (goodEnv [escapeFrame])).trace.drop 38,
    by decide, by decide, by decide⟩

theorem setClose_not_mem_shaderCalls (env : Env) :
    Call.glfwSetWindowShouldClose true ∉ shaderCalls env := by
  cases h1 : env.vertexOk <;> cases h2 : env.fragmentOk <;> cases h3 : env.linkOk <;>
    simp [shaderCalls, shaderCheck, linkCheck, h1, h2, h3]

theorem mem_pollCalls (f : FrameInput) (c : Call) (h : c ∈ pollCalls f) :
    c = Call.glfwPollEvents ∨ ∃ w t : Int, c = Call.glViewport 0 0 w t := by
  simp only [pollCalls, List.mem_cons, List.mem_map] at h
  rcases h with h | ⟨wh, _, h⟩
  · exact Or.inl h
  · exact Or.inr ⟨wh.1, wh.2, h.symm⟩

theorem count_pollCalls (f : FrameInput) (c : Call)
    (h1 : c ≠ Call.glfwPollEvents) (h2 : ∀ w t : Int, c ≠ Call.glViewport 0 0 w t) :
    (pollCalls f).count c = 0 := by
  apply List.count_eq_zero_of_not_mem
  intro hc
  rcases mem_pollCalls f c hc with h | ⟨w, t, h⟩
  · exact h1 h
  · exact h2 w t h

theorem setClose_not_mem_bodyCalls (f : FrameInput) (x y : Int) (hf : f.esc = false) :
    Call.glfwSetWindowShouldClose true ∉ bodyCalls f x y := by
  intro h
  simp only [bodyCalls, hf, movementsCalls, List.mem_append, List.mem_cons, List.mem_singleton] at h
  have hp : Call.glfwSetWindowShouldClose true ∉ pollCalls f := by
    intro hc
    rcases mem_pollCalls f _ hc with h | ⟨w, t, h⟩ <;> cases h
  simp [hp] at h

theorem setClose_not_mem_openCalls (pre : List FrameInput) (hpre : ∀ f ∈ pre, f.keepsOpen) :
    ∀ x y : Int, Call.glfwSetWindowShouldClose true ∉ openCalls pre x y := by
  induction pre with
  | nil => intro x y; simp [openCalls]
  | cons f pre ih =>
    intro x y h
    simp only [openCalls, List.mem_cons, List.mem_append] at h
    rcases h with h | h | h
    · cases h
    · exact setClose_not_mem_bodyCalls f x y (hpre f (List.mem_cons_self _ _)).1 h
    · exact ih (fun a ha => hpre a (List.mem_cons_of_mem _ ha)) _ _ h

/-- C2, amended: when Escape is pressed in a frame before which nothing asked
the window to close, `processInput` sets the close flag for the first time in
that frame and the rest of that same loop body still runs, so that exactly one
draw call and exactly one buffer swap are executed after the flag has been
set; the loop then ends at its next test, no later body runs (whatever input
follows) and `main` returns 0. -/
theorem C2_escape_ends_loop_after_the_body (env : Env) (pre rest : List FrameInput)
    (fe : FrameInput) (hw : env.windowOk = true) (hl : env.loaderOk = true)
    (hfr : env.frames = pre ++ fe :: rest) (hpre : ∀ f ∈ pre, f.keepsOpen)
    (hfe : fe.esc = true) :
    (main env).exit = some 0 ∧ (main env).drawn.length = pre.length + 1 ∧
    ∃ before after : List Call,
      (main env).trace = before ++ Call.glfwSetWindowShouldClose true :: after ∧
      Call.glfwSetWindowShouldClose true ∉ before ∧
      after = escapeTail fe (runFrom pre 0 0).1 (runFrom pre 0 0).2 ∧
      after.count (Call.glDrawElements DRAW_COUNT) = 1 ∧
      after.count Call.glfwSwapBuffers = 1 ∧
      after.count (Call.glfwGetKey Key.escape) = 0 := by
  have h := main_open_then_escape env pre rest fe hw hl hfr hpre hfe
  refine ⟨h.1, h.2.2.1,
    bootstrapCalls ++ contextCalls ++ shaderCalls env ++ geometryCalls ++ openCalls pre 0 0 ++
      [Call.glfwWindowShouldClose, Call.glfwGetKey Key.escape],
    escapeTail fe (runFrom pre 0 0).1 (runFrom pre 0 0).2, ?_, ?_, rfl, ?_, ?_, ?_⟩
  · rw [h.2.2.2.2.2]
    simp [bodyCalls, escapeTail, hfe, List.append_assoc]
  · have h1 := setClose_not_mem_shaderCalls env
    have h2 := setClose_not_mem_openCalls pre hpre 0 0
    simp [List.mem_append, bootstrapCalls, contextCalls, geometryCalls, h1, h2]
  · have hp := count_pollCalls fe (Call.glDrawElements DRAW_COUNT)
      (by intro hc; cases hc) (by intro w t hc; cases hc)
    simp [escapeTail, movementsCalls, shutdownCalls, List.count_append, List.count_cons, hp]
  · have hp := count_pollCalls fe Call.glfwSwapBuffers
      (by intro hc; cases hc) (by intro w t hc; cases hc)
    simp [escapeTail, movementsCalls, shutdownCalls, List.count_append, List.count_cons, hp]
  · have hp := count_pollCalls fe (Call.glfwGetKey Key.escape)
      (by intro hc; cases hc) (by intro w t hc; cases hc)
    simp [escapeTail, movementsCalls, shutdownCalls, List.count_append, List.count_cons, hp]

theorem C2_escape_ends_loop_after_the_body_witness :
    (main (goodEnv [idleFrame, escapeFrame, rightFrame])).exit = some 0 ∧
    (main (goodEnv [idleFrame, escapeFrame, rightFrame])).drawn.length = 2 :=
  ⟨(C2_escape_ends_loop_after_the_body (goodEnv [idleFrame, escapeFrame, rightFrame])
      [idleFrame] [rightFrame] escapeFrame rfl rfl rfl
      (by intro f hf; rw [List.mem_singleton.mp hf]; exact ⟨rfl, rfl⟩) rfl).1,
   (C2_escape_ends_loop_after_the_body (goodEnv [idleFrame, escapeFrame, rightFrame])
      [idleFrame] [rightFrame] escapeFrame rfl rfl rfl
      (by intro f hf; rw [List.mem_singleton.mp hf]; exact ⟨rfl, rfl⟩) rfl).2.1⟩

theorem main_drawn (env : Env) :
    (main env).drawn = [] ∨
    (main env).drawn = (frameLoop env.frames 0 0 (stateAtLoopEntry env)).drawn := by
  cases hw : env.windowOk with
  | false => left; simp [main, hw]
  | true =>
    cases hl : env.loaderOk with
    | false => left; simp [main, hw, hl]
    | true =>
      right
      rw [main_ok env hw hl]
      split <;> rfl

theorem main_drawn_getElem (env : Env) (i : Nat) (d : DrawRecord)
    (h : (main env).drawn[i]? = some d) :
    d = { count := DRAW_COUNT,
          viewport := { x := (offsetAfter (env.frames.take (i + 1))).1,
                        y := (offsetAfter (env.frames.take (i + 1))).2,
                        width := SRC_WIDTH, height := SRC_HEIGHT },
          vertexData := vertices, indexData := indices } := by
  rcases main_drawn env with h0 | h0
  · rw [h0] at h; simp at h
  · obtain ⟨n, _, h1, _, _⟩ := frameLoop_drawn env.frames 0 0 (stateAtLoopEntry env)
    rw [h0, h1] at h
    have hd := openDraws_getElem _ _ _ 0 0 i d h
    have hi : i < n := by
      have hlt : i < (openDraws (stateAtLoopEntry env).arrayBuffer
          (stateAtLoopEntry env).elementBuffer (env.frames.take n) 0 0).length := by
        by_contra hc
        rw [List.getElem?_eq_none (Nat.le_of_not_lt hc)] at h
        cases h
      rw [openDraws_length, List.length_take] at hlt
      omega
    rw [List.take_take, Nat.min_eq_left (by omega)] at hd
    rw [hd]
    rfl

/-- C8: in every frame, the viewport in effect when the indexed draw call is
issued is `(x, y, 800, 600)`, where `(x, y)` is the offset after that same
frame's `movements` update (the offset reached by the first `i + 1` frames for
the draw call of frame `i + 1`), whatever viewport the window started with and
whatever resize events were dispatched by earlier `glfwPollEvents` calls. -/
theorem C8_viewport_at_draw (env : Env) (i : Nat) (d : DrawRecord)
    (h : (main env).drawn[i]? = some d) :
    d.viewport = { x := (offsetAfter (env.frames.take (i + 1))).1,
                   y := (offsetAfter (env.frames.take (i + 1))).2,
                   width := 800, height := 600 } := by
  rw [main_drawn_getElem env i d h]
  rfl

theorem C8_viewport_at_draw_witness :
    (main (goodEnv [resizeFrame, rightFrame, escapeFrame])).drawn[1]? =
      some { count := 6, viewport := { x := 2, y := 2, width := 800, height := 600 },
             vertexData := vertices, indexData := indices } ∧
    offsetAfter ([resizeFrame, rightFrame, escapeFrame].take 2) = (2, 2) ∧
    (main (goodEnv [resizeFrame])).gl.viewport = { x := 0, y := 0, width := 640, height := 480 } ∧
    ({ count := 6, viewport := { x := 2, y := 2, width := 800, height := 600 },
       vertexData := vertices, indexData := indices } : DrawRecord).viewport =
      { x := (offsetAfter ([resizeFrame, rightFrame, escapeFrame].take 2)).1,
        y := (offsetAfter ([resizeFrame, rightFrame, escapeFrame].take 2)).2,
        width := 800, height := 600 } :=
  ⟨rfl, by decide, by decide,
    C8_viewport_at_draw (goodEnv [resizeFrame, rightFrame, escapeFrame]) 1 _ rfl⟩

/-- C6: `main` returns -1 when window creation fails and -1 when the window is
created but the loader fails; in both cases the trace is the start-up calls
and the message only, so that no shader, buffer or frame loop step is
executed.  It returns 0 in every run in which some frame sets the close flag
(Escape or an OS close request), and no exit code other than -1 and 0 is
possible; a run has no exit code yet exactly when the observed frames ran out
with the loop still running. -/
theorem C6_exit_codes (env : Env) :
    (env.windowOk = false →
      (main env).exit = some (-1) ∧ (main env).drawn = [] ∧
      (main env).trace = bootstrapCalls ++
        [Call.print "Failed to create GLFW window\n", Call.glfwTerminate]) ∧
    (env.windowOk = true → env.loaderOk = false →
      (main env).exit = some (-1) ∧ (main env).drawn = [] ∧
      (main env).trace = bootstrapCalls ++ contextCalls ++
        [Call.print "Failed to initialize GLAD\n"]) ∧
    ((main env).exit = some (-1) → ∀ c ∈ (main env).trace, c.isPastInit = false) ∧
    (env.windowOk = true → env.loaderOk = true →
      (∃ f ∈ env.frames, f.esc = true ∨ f.osClose = true) → (main env).exit = some 0) ∧
    (env.windowOk = true → env.loaderOk = true →
      (∀ f ∈ env.frames, f.keepsOpen) → (main env).exit = none) ∧
    (∀ c : Int, (main env).exit = some c → c = -1 ∨ c = 0) := by
  refine ⟨?_, ?_, ?_, ?_, ?_, ?_⟩
  · intro hw
    simp [main, hw]
  · intro hw hl
    simp [main, hw, hl]
  · intro he c hc
    cases hw : env.windowOk with
    | false =>
      have ht : (main env).trace = bootstrapCalls ++
          [Call.print "Failed to create GLFW window\n", Call.glfwTerminate] := by
        simp [main, hw]
      rw [ht] at hc
      revert c
      decide
    | true =>
      cases hl : env.loaderOk with
      | false =>
        have ht : (main env).trace = bootstrapCalls ++ contextCalls ++
            [Call.print "Failed to initialize GLAD\n"] := by
          simp [main, hw, hl]
        rw [ht] at hc
        revert c
        decide
      | true =>
        rw [main_ok env hw hl] at he
        split at he <;> simp at he
  · intro hw hl hc
    rw [main_ok env hw hl, frameLoop_exits env.frames 0 0 _ (Or.inr hc)]
    rfl
  · intro hw hl ho
    exact (main_open env hw hl ho).1
  · intro c hc
    cases hw : env.windowOk with
    | false =>
      simp [main, hw] at hc
      exact Or.inl hc.symm
    | true =>
      cases hl : env.loaderOk with
      | false =>
        simp [main, hw, hl] at hc
        exact Or.inl hc.symm
      | true =>
        rw [main_ok env hw hl] at hc
        split at hc <;> simp at hc
        exact Or.inr hc.symm

theorem C6_exit_codes_witness :
    (main noWindowEnv).exit = some (-1) ∧ (main noLoaderEnv).exit = some (-1) ∧
    (main (goodEnv [rightFrame, osCloseFrame, idleFrame])).exit = some 0 ∧
    (main (goodEnv [rightFrame, idleFrame])).exit = none :=
  ⟨((C6_exit_codes noWindowEnv).1 rfl).1,
   ((C6_exit_codes noLoaderEnv).2.1 rfl rfl).1,
   (C6_exit_codes (goodEnv [rightFrame, osCloseFrame, idleFrame])).2.2.2.1 rfl rfl
     ⟨osCloseFrame, List.mem_cons_of_mem _ (List.mem_cons_self _ _), Or.inr rfl⟩,
   (C6_exit_codes (goodEnv [rightFrame, idleFrame])).2.2.2.2.1 rfl rfl
     (by
       intro f hf
       simp only [goodEnv, List.mem_cons, List.mem_singleton, List.not_mem_nil, or_false] at hf
       rcases hf with rfl | rfl <;> exact ⟨rfl, rfl⟩)⟩

/-- C7: for every combination of the three success flags (and any logs), in a
run that reaches the shader phase, execution continues: each failed flag adds
its one diagnostic (the info log is fetched and printed after "ERROR") and
nothing else, so the shader phase without the diagnostics is that of the
all-success run, every step after it (shader deletion, geometry upload, frame
loop, shutdown) is identical to the all-success run, and so are the exit code,
the final offset and the draws. -/
theorem C7_shader_failure_only_prints (env : Env)
    (hw : env.windowOk = true) (hl : env.loaderOk = true) :
    (main env).exit = (main (allShadersOk env)).exit ∧
    (main env).x = (main (allShadersOk env)).x ∧
    (main env).y = (main (allShadersOk env)).y ∧
    (main env).drawn = (main (allShadersOk env)).drawn ∧
    (∃ rest : List Call,
      (main env).trace = bootstrapCalls ++ contextCalls ++ shaderCalls env ++ rest ∧
      (main (allShadersOk env)).trace =
        bootstrapCalls ++ contextCalls ++ shaderCalls (allShadersOk env) ++ rest) ∧
    (shaderCalls env).filter (fun c => !c.isDiagnostic) = shaderCalls (allShadersOk env) ∧
    (shaderCalls env).filter Call.isDiagnostic =
      (if env.vertexOk then [] else shaderDiagnostic ShaderKind.vertex env.vertexLog) ++
      (if env.fragmentOk then [] else shaderDiagnostic ShaderKind.fragment env.fragmentLog) ++
      (if env.linkOk then [] else linkDiagnostic env.linkLog) := by
  have hs : stateAtLoopEntry (allShadersOk env) = stateAtLoopEntry env := rfl
  have hf : (allShadersOk env).frames = env.frames := rfl
  have hm := main_ok env hw hl
  have hm2 := main_ok (allShadersOk env) hw hl
  rw [hs, hf] at hm2
  refine ⟨?_, ?_, ?_, ?_, ?_, ?_, ?_⟩
  · rw [hm, hm2]; split <;> rfl
  · rw [hm, hm2]; split <;> rfl
  · rw [hm, hm2]; split <;> rfl
  · rw [hm, hm2]; split <;> rfl
  · rw [hm, hm2]
    cases (frameLoop env.frames 0 0 (stateAtLoopEntry env)).exited
    · exact ⟨geometryCalls ++ (frameLoop env.frames 0 0 (stateAtLoopEntry env)).trace,
        by simp [List.append_assoc], by simp [List.append_assoc]⟩
    · exact ⟨geometryCalls ++ (frameLoop env.frames 0 0 (stateAtLoopEntry env)).trace ++
        shutdownCalls, by simp [List.append_assoc], by simp [List.append_assoc]⟩
  · cases h1 : env.vertexOk <;> cases h2 : env.fragmentOk <;> cases h3 : env.linkOk <;>
      simp [shaderCalls, shaderCheck, linkCheck, allShadersOk, h1, h2, h3, Call.isDiagnostic]
  · cases h1 : env.vertexOk <;> cases h2 : env.fragmentOk <;> cases h3 : env.linkOk <;>
      simp [shaderCalls, shaderCheck, linkCheck, shaderDiagnostic, linkDiagnostic, h1, h2, h3,
        Call.isDiagnostic]

theorem C7_shader_failure_only_prints_witness :
    (main badShaderEnv).exit = some 0 ∧
    (main badShaderEnv).exit = (main (allShadersOk badShaderEnv)).exit ∧
    (main badShaderEnv).x = (main (allShadersOk badShaderEnv)).x :=
  ⟨by decide, (C7_shader_failure_only_prints badShaderEnv rfl rfl).1,
    (C7_shader_failure_only_prints badShaderEnv rfl rfl).2.1⟩

/-! ### The quad -/

theorem corner_zero (K : Type) [LinearOrderedField K] : corner K 0 = (1/2, 1/2, 0) := by
  simp [corner, toPoint, vertexAt, vertices, ATTRIB_SIZE]

theorem corner_one (K : Type) [LinearOrderedField K] : corner K 1 = (1/2, -(1/2), 0) := by
  simp [corner, toPoint, vertexAt, vertices, ATTRIB_SIZE]
  ring

theorem corner_two (K : Type) [LinearOrderedField K] : corner K 2 = (-(1/2), -(1/2), 0) := by
  simp [corner, toPoint, vertexAt, vertices, ATTRIB_SIZE]
  ring

theorem corner_three (K : Type) [LinearOrderedField K] : corner K 3 = (-(1/2), 1/2, 0) := by
  simp [corner, toPoint, vertexAt, vertices, ATTRIB_SIZE]
  ring

theorem inTriangle_first_iff (K : Type) [LinearOrderedField K] (P : K × K × K) :
    InTriangle (corner K 0) (corner K 1) (corner K 3) P ↔
      0 ≤ P.1 + P.2.1 ∧ P.1 ≤ 1/2 ∧ P.2.1 ≤ 1/2 ∧ P.2.2 = 0 := by
  rw [corner_zero, corner_one, corner_three]
  constructor
  · rintro ⟨a, b, c, ha, hb, hc, hs, h1, h2, h3⟩
    simp only at h1 h2 h3
    refine ⟨?_, ?_, ?_, ?_⟩
    · rw [h1, h2]; linarith
    · rw [h1]; linarith
    · rw [h2]; linarith
    · rw [h3]; ring
  · rintro ⟨h1, h2, h3, h4⟩
    refine ⟨P.1 + P.2.1, 1/2 - P.2.1, 1/2 - P.1, h1, by linarith, by linarith, by ring, ?_, ?_, ?_⟩
    · simp only; ring
    · simp only; ring
    · simp only; rw [h4]; ring

theorem inTriangle_second_iff (K : Type) [LinearOrderedField K] (P : K × K × K) :
    InTriangle (corner K 1) (corner K 2) (corner K 3) P ↔
      P.1 + P.2.1 ≤ 0 ∧ -(1/2) ≤ P.1 ∧ -(1/2) ≤ P.2.1 ∧ P.2.2 = 0 := by
  rw [corner_one, corner_two, corner_three]
  constructor
  · rintro ⟨a, b, c, ha, hb, hc, hs, h1, h2, h3⟩
    simp only at h1 h2 h3
    refine ⟨?_, ?_, ?_, ?_⟩
    · rw [h1, h2]; linarith
    · rw [h1]; linarith
    · rw [h2]; linarith
    · rw [h3]; ring
  · rintro ⟨h1, h2, h3, h4⟩
    refine ⟨P.1 + 1/2, -(P.1 + P.2.1), P.2.1 + 1/2, by linarith, by linarith, by linarith,
      by ring, ?_, ?_, ?_⟩
    · simp only; ring
    · simp only; ring
    · simp only; rw [h4]; ring

theorem onSegment_diagonal_iff (K : Type) [LinearOrderedField K] (P : K × K × K) :
    OnSegment (corner K 1) (corner K 3) P ↔
      P.1 + P.2.1 = 0 ∧ -(1/2) ≤ P.1 ∧ P.1 ≤ 1/2 ∧ P.2.2 = 0 := by
  rw [corner_one, corner_three]
  constructor
  · rintro ⟨t, h0, h1, hx, hy, hz⟩
    simp only at hx hy hz
    refine ⟨?_, ?_, ?_, ?_⟩
    · rw [hx, hy]; ring
    · rw [hx]; linarith
    · rw [hx]; linarith
    · rw [hz]; ring
  · rintro ⟨h1, h2, h3, h4⟩
    refine ⟨1/2 - P.1, by linarith, by linarith, ?_, ?_, ?_⟩
    · simp only; ring
    · simp only; linear_combination h1
    · simp only; rw [h4]; ring

/-- C5: the `vertices` and `indices` arrays describe exactly two triangles,
`(v0,v1,v3)` and `(v1,v2,v3)`; both are non-degenerate, a point lies in both
exactly when it lies on the shared edge `v1 v3`, and a point lies in one of
them exactly when it lies in the square `[-1/2,1/2] x [-1/2,1/2]` of the plane
`z = 0` (over any ordered field, the reals in particular).  Every draw call of
every run, whatever the offset, is issued with these arrays unchanged. -/
theorem C5_quad_geometry (K : Type) [LinearOrderedField K] :
    assembleTriangles (indices.take DRAW_COUNT) = [(0, 1, 3), (1, 2, 3)] ∧
    NonDegenerate (vertexAt vertices 0) (vertexAt vertices 1) (vertexAt vertices 3) ∧
    NonDegenerate (vertexAt vertices 1) (vertexAt vertices 2) (vertexAt vertices 3) ∧
    (∀ P : K × K × K,
      (InTriangle (corner K 0) (corner K 1) (corner K 3) P ∧
        InTriangle (corner K 1) (corner K 2) (corner K 3) P) ↔
      OnSegment (corner K 1) (corner K 3) P) ∧
    (∀ P : K × K × K,
      (InTriangle (corner K 0) (corner K 1) (corner K 3) P ∨
        InTriangle (corner K 1) (corner K 2) (corner K 3) P) ↔
      InUnitSquare P) ∧
    (∀ (env : Env) (d : DrawRecord), d ∈ (main env).drawn →
      d.vertexData = vertices ∧ d.indexData = indices ∧
      drawnTriangles d = [(0, 1, 3), (1, 2, 3)]) := by
  refine ⟨by decide, ?_, ?_, ?_, ?_, ?_⟩
  · norm_num [NonDegenerate, crossProduct, vertexAt, vertices, ATTRIB_SIZE]
  · norm_num [NonDegenerate, crossProduct, vertexAt, vertices, ATTRIB_SIZE]
  · intro P
    rw [inTriangle_first_iff, inTriangle_second_iff, onSegment_diagonal_iff]
    constructor
    · rintro ⟨⟨a1, a2, a3, a4⟩, b1, b2, b3, b4⟩
      exact ⟨le_antisymm b1 a1, b2, a2, a4⟩
    · rintro ⟨h1, h2, h3, h4⟩
      exact ⟨⟨by linarith, h3, by linarith, h4⟩, by linarith, h2, by linarith, h4⟩
  · intro P
    rw [inTriangle_first_iff, inTriangle_second_iff]
    unfold InUnitSquare
    constructor
    · rintro (⟨a1, a2, a3, a4⟩ | ⟨b1, b2, b3, b4⟩)
      · exact ⟨by linarith, a2, by linarith, a3, a4⟩
      · exact ⟨b2, by linarith, b3, by linarith, b4⟩
    · rintro ⟨h1, h2, h3, h4, h5⟩
      rcases le_total 0 (P.1 + P.2.1) with h | h
      · exact Or.inl ⟨h, h2, h4, h5⟩
      · exact Or.inr ⟨h, h1, h3, h5⟩
  · intro env d hd
    obtain ⟨i, hi⟩ := List.mem_iff_getElem?.mp hd
    rw [main_drawn_getElem env i d hi]
    exact ⟨rfl, rfl, rfl⟩

theorem C5_quad_geometry_witness :
    (InTriangle (corner ℚ 0) (corner ℚ 1) (corner ℚ 3) ((1/4 : ℚ), (1/4 : ℚ), (0 : ℚ)) ∨
      InTriangle (corner ℚ 1) (corner ℚ 2) (corner ℚ 3) ((1/4 : ℚ), (1/4 : ℚ), (0 : ℚ))) ∧
    (main (goodEnv [rightFrame, escapeFrame])).drawn.length = 2 ∧
    ∀ d ∈ (main (goodEnv [rightFrame, escapeFrame])).drawn,
      d.vertexData = vertices ∧ d.indexData = indices ∧
      drawnTriangles d = [(0, 1, 3), (1, 2, 3)] :=
  ⟨((C5_quad_geometry ℚ).2.2.2.2.1 _).mpr (by unfold InUnitSquare; norm_num),
   by decide,
   fun d hd => (C5_quad_geometry ℚ).2.2.2.2.2 (goodEnv [rightFrame, escapeFrame]) d hd⟩

/-- C9: the indexed draw is in bounds.  The count passed to the draw call, 6,
is the length of `indices`; every entry of `indices` is smaller than the
number of vertices, 4; `vertices` has 12 entries, 4 vertices times the 3
floats per vertex of the attribute layout; every vertex 0..3 occurs in
`indices`; and the draw call and the layout call of the program carry these
numbers. -/
theorem C9_indexed_draw_in_bounds :
    DRAW_COUNT = 6 ∧ indices.length = DRAW_COUNT ∧
    (∀ k : Fin indices.length, indices.get k < 4) ∧
    ATTRIB_SIZE = 3 ∧ vertices.length = 12 ∧ vertices.length = 4 * ATTRIB_SIZE ∧
    (∀ v : Fin 4, v.val ∈ indices) ∧
    Call.glVertexAttribPointer 0 3 12 ∈ geometryCalls ∧
    Call.glBufferData BufferTarget.arrayBuffer (4 * 12) ∈ geometryCalls ∧
    Call.glBufferData BufferTarget.elementArrayBuffer (4 * 6) ∈ geometryCalls ∧
    (∀ (f : FrameInput) (x y : Int) (g : GLState),
      Call.glDrawElements 6 ∈ (frameBody f x y g).trace ∧
      (frameBody f x y g).draw.count = 6) := by
  refine ⟨rfl, rfl, by decide, rfl, rfl, rfl, by decide, by decide, by decide, by decide, ?_⟩
  intro f x y g
  rw [frameBody_trace, frameBody_draw]
  exact ⟨by simp [bodyCalls, DRAW_COUNT], rfl⟩

end MovingMain
